import Mathlib

/-!
War estruturado: a verification development of `war.c`

The program keeps a fixed array of ten territories, lets the player attack
from one territory into another (`simularAtaque`) and checks a secret mission
(`verificarVitoria`).

Embedding conventions.

* A `Territorio` is the C struct: two strings and an `int`.  The strings are
  Lean strings; `strcmp(a, b) == 0` is equality and `strcpy` is assignment
  (every colour the program copies fits its 20-byte buffer).
* The map `Territorio *mapa` is a `List Territorio`; the program always
  allocates `NUM_TERRITORIOS` cells, which theorems state as
  `mapa.length = NUM_TERRITORIOS` where they need it.
* `int` values are `Int`.  The only arithmetic on the troop count is `--`,
  modelled by `decInt`, the 32-bit wrap-around decrement.
* `rand()` is not a function of the state of the program: every call site
  takes the value that `rand()` returns as a natural-number argument.
* `printf` is modelled by returning the list of messages printed.
* `scanf` is modelled by taking the integers read as arguments; one round of
  the loop of `main` is the function `rodada`.
-/

namespace War

/-! ## Constants -/

/-- Number of cells of the map (`#define NUM_TERRITORIOS 10`). -/
def NUM_TERRITORIOS : Nat := 10

/-- Number of missions (`#define NUM_MISSOES 3`). -/
def NUM_MISSOES : Nat := 3

/-- Colour of the player's army (`#define AZUL`). -/
def AZUL : String := "Azul"

/-- Colour of the first enemy (`#define VERMELHO`). -/
def VERMELHO : String := "Vermelho"

/-- Colour of the second enemy (`#define VERDE`). -/
def VERDE : String := "Verde"

/-- Colour of the third enemy (`#define AMARELO`). -/
def AMARELO : String := "Amarelo"

/-- Smallest value of a C `int`. -/
def INT_MIN : Int := -2147483648

/-- Largest value of a C `int`. -/
def INT_MAX : Int := 2147483647

/-! ## Data model -/

/-- The C struct `Territorio`: name, colour of the owning army, troop count. -/
structure Territorio where
  nome : String
  cor_exercito : String
  num_tropas : Int
  deriving DecidableEq, Repr

/-- A cell as `calloc` leaves it: empty strings and zero troops. -/
def territorioZero : Territorio := ⟨"", "", 0⟩

instance : Inhabited Territorio := ⟨territorioZero⟩

/-- The map: the array behind `Territorio *mapa`. -/
abbrev Mapa := List Territorio

/-- Read of `mapa[i]`. -/
def ler (mapa : Mapa) (i : Nat) : Territorio := mapa.getD i territorioZero

/-- Result of `x--` on a 32-bit `int`: `x - 1`, wrapping around at `INT_MIN`. -/
def decInt (x : Int) : Int := (x - 1 + 2147483648) % 4294967296 - 2147483648

/-- The statement `mapa[i].num_tropas--`. -/
def decTropas (mapa : Mapa) (i : Nat) : Mapa :=
  mapa.set i { ler mapa i with num_tropas := decInt (ler mapa i).num_tropas }

/-- The statement `mapa[i].num_tropas = n`. -/
def setTropas (mapa : Mapa) (i : Nat) (n : Int) : Mapa :=
  mapa.set i { ler mapa i with num_tropas := n }

/-- The statement `strcpy(mapa[i].cor_exercito, cor)`. -/
def setCor (mapa : Mapa) (i : Nat) (cor : String) : Mapa :=
  mapa.set i { ler mapa i with cor_exercito := cor }

/-- The statement `strcpy(mapa[i].nome, nome)`. -/
def setNome (mapa : Mapa) (i : Nat) (nome : String) : Mapa :=
  mapa.set i { ler mapa i with nome := nome }

/-- The lines that `simularAtaque` can print, one constructor per `printf`. -/
inductive Mensagem where
  /-- Prints "Erro: ID de territorio invalido." -/
  | erroIdInvalido
  /-- Prints "Erro: Voce so pode atacar a partir de um territorio seu." -/
  | erroNaoDono
  /-- Prints "Erro: Voce nao pode atacar um territorio que ja e seu." -/
  | erroJaSeu
  /-- Prints "Erro: O territorio de origem precisa ter mais de 1 tropa para atacar." -/
  | erroPoucasTropas
  /-- Prints "--- BATALHA: %s ataca %s ---" -/
  | batalha (origem destino : String)
  /-- Prints "Dado de Ataque: %d" -/
  | dadoAtaque (d : Int)
  /-- Prints "Dado de Defesa: %d" -/
  | dadoDefesa (d : Int)
  /-- Prints "VITORIA DO ATACANTE! O defensor perdeu 1 tropa." -/
  | vitoriaAtacante
  /-- Prints "VITORIA DO DEFENSOR! O atacante perdeu 1 tropa." -/
  | vitoriaDefensor
  /-- Prints "*** TERRITORIO %s CONQUISTADO! ***" -/
  | conquistado (nome : String)
  deriving DecidableEq, Repr

/-! ## Setup -/

/-- The successful `calloc(NUM_TERRITORIOS, sizeof(Territorio))` of `alocarMapa`. -/
def alocarMapa : Mapa := List.replicate NUM_TERRITORIOS territorioZero

/-- One line of `inicializarTerritorios`: two `strcpy` and one assignment. -/
def preencher (mapa : Mapa) (i : Nat) (nome cor : String) (n : Int) : Mapa :=
  setTropas (setCor (setNome mapa i nome) i cor) i n

/-- Fills the ten cells with the fixed scenario, as `inicializarTerritorios`. -/
def inicializarTerritorios (mapa : Mapa) : Mapa :=
  let m := preencher mapa 0 "Brasil" AZUL 5
  let m := preencher m 1 "Argentina" AZUL 3
  let m := preencher m 2 "Peru" VERMELHO 4
  let m := preencher m 3 "Colombia" VERMELHO 3
  let m := preencher m 4 "Venezuela" VERMELHO 2
  let m := preencher m 5 "Mexico" VERDE 5
  let m := preencher m 6 "Canada" VERDE 3
  let m := preencher m 7 "Alasca" AMARELO 2
  let m := preencher m 8 "Groenlandia" AMARELO 3
  let m := preencher m 9 "Islandia" AMARELO 4
  m

/-! ## Combat -/

/-- One die: `(rand() % 6) + 1` for the value `r` returned by `rand()`. -/
def dado (r : Nat) : Int := ((r % 6 : Nat) : Int) + 1

/-- The function `simularAtaque`.  `r1` and `r2` are the values of the two
`rand()` calls (attack, then defence); the result is the lines printed and
the map after the call. -/
def simularAtaque (mapa : Mapa) (idOrigem idDestino : Int) (corJogador : String)
    (r1 r2 : Nat) : List Mensagem × Mapa :=
  if idOrigem < 0 ∨ idOrigem ≥ NUM_TERRITORIOS ∨ idDestino < 0 ∨ idDestino ≥ NUM_TERRITORIOS then
    ([Mensagem.erroIdInvalido], mapa)
  else if (ler mapa idOrigem.toNat).cor_exercito ≠ corJogador then
    ([Mensagem.erroNaoDono], mapa)
  else if (ler mapa idDestino.toNat).cor_exercito = corJogador then
    ([Mensagem.erroJaSeu], mapa)
  else if (ler mapa idOrigem.toNat).num_tropas ≤ 1 then
    ([Mensagem.erroPoucasTropas], mapa)
  else
    let o := idOrigem.toNat
    let d := idDestino.toNat
    let dadoAtaque := dado r1
    let dadoDefesa := dado r2
    let saida := [Mensagem.batalha (ler mapa o).nome (ler mapa d).nome,
      Mensagem.dadoAtaque dadoAtaque, Mensagem.dadoDefesa dadoDefesa]
    let (saida, mapa) :=
      if dadoAtaque > dadoDefesa then
        (saida ++ [Mensagem.vitoriaAtacante], decTropas mapa d)
      else
        (saida ++ [Mensagem.vitoriaDefensor], decTropas mapa o)
    if (ler mapa d).num_tropas = 0 then
      let saida := saida ++ [Mensagem.conquistado (ler mapa d).nome]
      let mapa := setCor mapa d corJogador
      let mapa := setTropas mapa d 1
      let mapa := decTropas mapa o
      (saida, mapa)
    else
      (saida, mapa)

/-! ## Missions -/

/-- The function `sortearMissao`: `rand() % NUM_MISSOES` for the value `r`
returned by `rand()`. -/
def sortearMissao (r : Nat) : Int := ((r % NUM_MISSOES : Nat) : Int)

/-- The description line that `exibirMissao` prints for a mission id. -/
def exibirMissao (idMissao : Int) : String :=
  if idMissao = 0 then "Destruir completamente o exercito VERMELHO."
  else if idMissao = 1 then "Conquistar 6 territorios no total."
  else if idMissao = 2 then "Destruir completamente o exercito VERDE."
  else "Missao desconhecida."

/-- The loop `for (i = 0; i < NUM_TERRITORIOS; i++) if (strcmp(mapa[i].cor_exercito, cor) == 0) return 0;`
followed by `return 1`, started at index `i` with `n` iterations left. -/
def semCor (mapa : Mapa) (cor : String) (i : Nat) : Nat → Int
  | 0 => 1
  | n + 1 => if (ler mapa i).cor_exercito = cor then 0 else semCor mapa cor (i + 1) n

/-- The counting loop of mission 1, started at index `i` with `n` iterations
left and the counter at `acc`. -/
def contarCor (mapa : Mapa) (cor : String) (i : Nat) (acc : Int) : Nat → Int
  | 0 => acc
  | n + 1 =>
    if (ler mapa i).cor_exercito = cor then contarCor mapa cor (i + 1) (acc + 1) n
    else contarCor mapa cor (i + 1) acc n

/-- The function `verificarVitoria`: 1 when the mission is fulfilled, else 0. -/
def verificarVitoria (mapa : Mapa) (idMissao : Int) (corJogador : String) : Int :=
  if idMissao = 0 then
    semCor mapa VERMELHO 0 NUM_TERRITORIOS
  else if idMissao = 1 then
    let territoriosConquistados := contarCor mapa corJogador 0 0 NUM_TERRITORIOS
    if territoriosConquistados ≥ 6 then 1 else 0
  else if idMissao = 2 then
    semCor mapa VERDE 0 NUM_TERRITORIOS
  else
    0

/-! ## Vocabulary of the specification -/

/-- Sum of the troop counts over the whole map. -/
def totalTropas (mapa : Mapa) : Int := (mapa.map Territorio.num_tropas).sum

/-- Number of territories of the map owned by `cor`. -/
def numTerritorios (mapa : Mapa) (cor : String) : Nat :=
  mapa.countP (fun t => t.cor_exercito = cor)

/-- The four checks of `simularAtaque` all pass. -/
def ataqueAceito (mapa : Mapa) (idOrigem idDestino : Int) (corJogador : String) : Prop :=
  (0 ≤ idOrigem ∧ idOrigem < NUM_TERRITORIOS ∧ 0 ≤ idDestino ∧ idDestino < NUM_TERRITORIOS) ∧
  (ler mapa idOrigem.toNat).cor_exercito = corJogador ∧
  (ler mapa idDestino.toNat).cor_exercito ≠ corJogador ∧
  1 < (ler mapa idOrigem.toNat).num_tropas

instance (mapa : Mapa) (idOrigem idDestino : Int) (corJogador : String) :
    Decidable (ataqueAceito mapa idOrigem idDestino corJogador) := by
  unfold ataqueAceito; infer_instance

/-- Every troop count of the map is a value of the C type `int`. -/
def tropasInt (mapa : Mapa) : Prop :=
  ∀ t ∈ mapa, INT_MIN ≤ t.num_tropas ∧ t.num_tropas ≤ INT_MAX

instance (mapa : Mapa) : Decidable (tropasInt mapa) := by
  unfold tropasInt; infer_instance

/-- The output contains the line announcing a conquest. -/
def houveConquista (saida : List Mensagem) : Bool :=
  saida.any fun m => match m with
    | Mensagem.conquistado _ => true
    | _ => false

/-- A map with player territory 0 (5 troops) and Vermelho territory 2 (1 troop):
the initial scenario with the garrison of Peru reduced to one troop. -/
def mapaCenario : Mapa := setTropas (inicializarTerritorios alocarMapa) 2 1

/-- The map after the roll: the loser of the roll has one troop less. -/
def aposDados (mapa : Mapa) (o d : Nat) (r1 r2 : Nat) : Mapa :=
  if dado r1 > dado r2 then decTropas mapa d else decTropas mapa o

/-- The scenario map after Azul has taken Peru, Colombia, Venezuela and Mexico. -/
def mapaSeis : Mapa :=
  setCor (setCor (setCor (setCor mapaCenario 2 AZUL) 3 AZUL) 4 AZUL) 5 AZUL

/-- The map `mapaSeis` after Azul has also taken Canada. -/
def mapaSete : Mapa := setCor mapaSeis 6 AZUL

/-- The output contains the line that opens a battle, printed once the four
checks of `simularAtaque` have passed. -/
def houveBatalha (saida : List Mensagem) : Bool :=
  saida.any fun m => match m with
    | Mensagem.batalha _ _ => true
    | _ => false

/-- Sum of the troop counts over the territories owned by `cor`. -/
def tropasJogador (mapa : Mapa) (cor : String) : Int :=
  (mapa.map fun t => if t.cor_exercito = cor then t.num_tropas else 0).sum

/-- The inputs of one call of `simularAtaque`: the two ids typed by the player
and the values of the two `rand()` calls. -/
structure Ataque where
  idOrigem : Int
  idDestino : Int
  r1 : Nat
  r2 : Nat
  deriving DecidableEq, Repr

/-- The map after a finite sequence of `simularAtaque` calls by the player `cor`. -/
def aplicarAtaques (cor : String) (mapa : Mapa) (ataques : List Ataque) : Mapa :=
  ataques.foldl (fun m a => (simularAtaque m a.idOrigem a.idDestino cor a.r1 a.r2).2) mapa

/-- The function `faseDeAtaque`: the two ids are the values read by `scanf`. -/
def faseDeAtaque (mapa : Mapa) (corJogador : String) (idOrigem idDestino : Int)
    (r1 r2 : Nat) : List Mensagem × Mapa :=
  simularAtaque mapa idOrigem idDestino corJogador r1 r2

/-- What one round of the loop of `main` consumes: the menu choice read by
`scanf` and, for the attack phase, the two ids and the two `rand()` values. -/
structure Entrada where
  escolha : Int
  ataque : Ataque
  deriving DecidableEq, Repr

/-- The variables of `main` that live across rounds: the map and `vitoria`. -/
structure Estado where
  mapa : Mapa
  vitoria : Int
  deriving DecidableEq, Repr

/-- One round of the `do ... while (escolha != 0 && !vitoria)` loop of `main`:
the `switch` on the choice, then the loop condition.  The result is the state
after the round and whether the loop goes on. -/
def rodada (missaoJogador : Int) (corJogador : String) (s : Estado) (e : Entrada) :
    Estado × Bool :=
  let s :=
    if e.escolha = 1 then
      { s with mapa := (faseDeAtaque s.mapa corJogador e.ataque.idOrigem e.ataque.idDestino
          e.ataque.r1 e.ataque.r2).2 }
    else if e.escolha = 2 then
      if verificarVitoria s.mapa missaoJogador corJogador ≠ 0 then { s with vitoria := 1 }
      else s
    else if e.escolha = 0 then s
    else s
  (s, decide (e.escolha ≠ 0 ∧ s.vitoria = 0))

/-- Every territory of the map has between 1 troop and `INT_MAX` troops. -/
def tropasPositivas (mapa : Mapa) : Prop :=
  ∀ t ∈ mapa, 1 ≤ t.num_tropas ∧ t.num_tropas ≤ INT_MAX

instance (mapa : Mapa) : Decidable (tropasPositivas mapa) := by
  unfold tropasPositivas; infer_instance

/-- The colour is one of the four armies of the game. -/
def corValida (cor : String) : Prop :=
  cor = AZUL ∨ cor = VERMELHO ∨ cor = VERDE ∨ cor = AMARELO

instance (cor : String) : Decidable (corValida cor) := by
  unfold corValida; infer_instance

/-! ## Basic facts about reads and writes -/

theorem ler_set (mapa : Mapa) (i j : Nat) (x : Territorio) :
    ler (mapa.set i x) j = if i = j ∧ i < mapa.length then x else ler mapa j := by
  unfold ler
  simp only [List.getD_eq_getElem?_getD, List.getElem?_set]
  by_cases hij : i = j
  · subst hij
    by_cases hi : i < mapa.length
    · simp [hi]
    · have hn : mapa[i]? = none := List.getElem?_eq_none (Nat.le_of_not_lt hi)
      simp [hi, hn]
  · simp [hij]

theorem ler_mem (mapa : Mapa) (i : Nat) (h : i < mapa.length) : ler mapa i ∈ mapa := by
  unfold ler
  rw [List.getD_eq_getElem?_getD, List.getElem?_eq_getElem h]
  exact List.getElem_mem h

theorem ler_cons_succ (x : Territorio) (l : Mapa) (i : Nat) :
    ler (x :: l) (i + 1) = ler l i := by
  simp [ler]

theorem ler_cons_zero (x : Territorio) (l : Mapa) : ler (x :: l) 0 = x := by
  simp [ler]

theorem decInt_eq (x : Int) (h1 : INT_MIN < x) (h2 : x ≤ INT_MAX) : decInt x = x - 1 := by
  unfold decInt
  unfold INT_MIN at h1
  unfold INT_MAX at h2
  omega

/-! ## Rejected attacks -/

/-- C1: when at least one index is outside `[0, 10)`, `simularAtaque` prints
only the invalid-id error and returns the map as it was, for every map (of
any content and any length, so no cell is consulted) and every pair of
`rand()` values; the printed lines are the same whatever the map and dice. -/
theorem simularAtaque_idInvalido (mapa : Mapa) (idOrigem idDestino : Int)
    (corJogador : String) (r1 r2 : Nat)
    (h : idOrigem < 0 ∨ 10 ≤ idOrigem ∨ idDestino < 0 ∨ 10 ≤ idDestino) :
    simularAtaque mapa idOrigem idDestino corJogador r1 r2
        = ([Mensagem.erroIdInvalido], mapa) ∧
      ∀ (mapa2 : Mapa) (s1 s2 : Nat),
        (simularAtaque mapa2 idOrigem idDestino corJogador s1 s2).1
          = (simularAtaque mapa idOrigem idDestino corJogador r1 r2).1 := by
  have key : ∀ (m : Mapa) (a b : Nat),
      simularAtaque m idOrigem idDestino corJogador a b = ([Mensagem.erroIdInvalido], m) := by
    intro m a b
    unfold simularAtaque NUM_TERRITORIOS
    rw [if_pos]
    simpa using h
  refine ⟨key mapa r1 r2, ?_⟩
  intro mapa2 s1 s2
  rw [key, key]

theorem simularAtaque_idInvalido_witness :
    simularAtaque mapaCenario (-1) 10 AZUL 5 0 = ([Mensagem.erroIdInvalido], mapaCenario) ∧
      ∀ (mapa2 : Mapa) (s1 s2 : Nat),
        (simularAtaque mapa2 (-1) 10 AZUL s1 s2).1
          = (simularAtaque mapaCenario (-1) 10 AZUL 5 0).1 :=
  simularAtaque_idInvalido mapaCenario (-1) 10 AZUL 5 0 (by decide)

/-- C2: for in-range indices, when the attacker is not the player's, or the
defender already is, or the attacker has at most one troop, `simularAtaque`
returns the map exactly as it was, for every pair of `rand()` values. -/
theorem simularAtaque_recusado (mapa : Mapa) (idOrigem idDestino : Int)
    (corJogador : String) (r1 r2 : Nat)
    (hO : 0 ≤ idOrigem ∧ idOrigem < 10) (hD : 0 ≤ idDestino ∧ idDestino < 10)
    (h : (ler mapa idOrigem.toNat).cor_exercito ≠ corJogador ∨
      (ler mapa idDestino.toNat).cor_exercito = corJogador ∨
      (ler mapa idOrigem.toNat).num_tropas ≤ 1) :
    (simularAtaque mapa idOrigem idDestino corJogador r1 r2).2 = mapa := by
  unfold simularAtaque NUM_TERRITORIOS
  have hr : ¬ (idOrigem < 0 ∨ idOrigem ≥ ((10 : Nat) : Int) ∨ idDestino < 0 ∨
      idDestino ≥ ((10 : Nat) : Int)) := by
    simp only [Nat.cast_ofNat]; omega
  rw [if_neg hr]
  by_cases h1 : (ler mapa idOrigem.toNat).cor_exercito ≠ corJogador
  · rw [if_pos h1]
  · rw [if_neg h1]
    by_cases h2 : (ler mapa idDestino.toNat).cor_exercito = corJogador
    · rw [if_pos h2]
    · rw [if_neg h2]
      by_cases h3 : (ler mapa idOrigem.toNat).num_tropas ≤ 1
      · rw [if_pos h3]
      · rcases h with h | h | h
        · exact absurd h h1
        · exact absurd h h2
        · exact absurd h h3

theorem simularAtaque_recusado_witness :
    ((0 : Int) ≤ 2 ∧ (2 : Int) < 10) ∧ ((0 : Int) ≤ 0 ∧ (0 : Int) < 10) ∧
      (ler mapaCenario (2 : Int).toNat).cor_exercito ≠ AZUL ∧
      (simularAtaque mapaCenario 2 0 AZUL 5 0).2 = mapaCenario :=
  ⟨by decide, by decide, by decide,
    simularAtaque_recusado mapaCenario 2 0 AZUL 5 0 (by decide) (by decide)
      (Or.inl (by decide))⟩

/-! ## Accepted attacks -/

theorem length_decTropas (m : Mapa) (i : Nat) : (decTropas m i).length = m.length := by
  simp [decTropas]

theorem length_setTropas (m : Mapa) (i : Nat) (n : Int) :
    (setTropas m i n).length = m.length := by
  simp [setTropas]

theorem length_setCor (m : Mapa) (i : Nat) (c : String) :
    (setCor m i c).length = m.length := by
  simp [setCor]

theorem ler_decTropas (m : Mapa) (i j : Nat) :
    ler (decTropas m i) j =
      if i = j ∧ i < m.length then
        { ler m i with num_tropas := decInt (ler m i).num_tropas }
      else ler m j := by
  simp [decTropas, ler_set]

theorem ler_setTropas (m : Mapa) (i j : Nat) (n : Int) :
    ler (setTropas m i n) j =
      if i = j ∧ i < m.length then { ler m i with num_tropas := n } else ler m j := by
  simp [setTropas, ler_set]

theorem ler_setCor (m : Mapa) (i j : Nat) (c : String) :
    ler (setCor m i c) j =
      if i = j ∧ i < m.length then { ler m i with cor_exercito := c } else ler m j := by
  simp [setCor, ler_set]

/-- The map after an accepted attack, written as the two steps of the code. -/
theorem simularAtaque_aceito_mapa (mapa : Mapa) (idOrigem idDestino : Int)
    (corJogador : String) (r1 r2 : Nat)
    (h : ataqueAceito mapa idOrigem idDestino corJogador) :
    (simularAtaque mapa idOrigem idDestino corJogador r1 r2).2 =
      if (ler (aposDados mapa idOrigem.toNat idDestino.toNat r1 r2) idDestino.toNat).num_tropas = 0
      then
        decTropas (setTropas (setCor (aposDados mapa idOrigem.toNat idDestino.toNat r1 r2)
          idDestino.toNat corJogador) idDestino.toNat 1) idOrigem.toNat
      else aposDados mapa idOrigem.toNat idDestino.toNat r1 r2 := by
  obtain ⟨⟨h1, h2, h3, h4⟩, hc1, hc2, ht⟩ := h
  unfold simularAtaque aposDados
  have hr : ¬ (idOrigem < 0 ∨ idOrigem ≥ (NUM_TERRITORIOS : Int) ∨ idDestino < 0 ∨
      idDestino ≥ (NUM_TERRITORIOS : Int)) := by omega
  rw [if_neg hr, if_neg (not_not.mpr hc1), if_neg hc2, if_neg (not_le.mpr ht)]
  by_cases hd : dado r1 > dado r2
  · simp only [hd, if_true]
    split <;> rfl
  · simp only [hd, if_false]
    split <;> rfl

/-- The conquest line is printed exactly when the defender is at zero after the roll. -/
theorem simularAtaque_aceito_conquista (mapa : Mapa) (idOrigem idDestino : Int)
    (corJogador : String) (r1 r2 : Nat)
    (h : ataqueAceito mapa idOrigem idDestino corJogador) :
    houveConquista (simularAtaque mapa idOrigem idDestino corJogador r1 r2).1 = true ↔
      (ler (aposDados mapa idOrigem.toNat idDestino.toNat r1 r2) idDestino.toNat).num_tropas
        = 0 := by
  obtain ⟨⟨h1, h2, h3, h4⟩, hc1, hc2, ht⟩ := h
  unfold simularAtaque aposDados
  have hr : ¬ (idOrigem < 0 ∨ idOrigem ≥ (NUM_TERRITORIOS : Int) ∨ idDestino < 0 ∨
      idDestino ≥ (NUM_TERRITORIOS : Int)) := by omega
  rw [if_neg hr, if_neg (not_not.mpr hc1), if_neg hc2, if_neg (not_le.mpr ht)]
  by_cases hd : dado r1 > dado r2
  · simp only [hd, if_true]
    split <;> simp [houveConquista, *]
  · simp only [hd, if_false]
    split <;> simp [houveConquista, *]

theorem totalTropas_set (m : Mapa) (i : Nat) (x : Territorio) (h : i < m.length) :
    totalTropas (m.set i x) = totalTropas m - (ler m i).num_tropas + x.num_tropas := by
  induction m generalizing i with
  | nil => simp at h
  | cons a l ih =>
    cases i with
    | zero =>
      simp only [List.set_cons_zero, totalTropas, List.map_cons, List.sum_cons, ler_cons_zero]
      omega
    | succ j =>
      have hj : j < l.length := by simpa using h
      have := ih j hj
      simp only [totalTropas] at this
      simp only [List.set_cons_succ, totalTropas, List.map_cons, List.sum_cons, ler_cons_succ,
        this]
      omega

theorem totalTropas_decTropas (m : Mapa) (i : Nat) (h : i < m.length) :
    totalTropas (decTropas m i) =
      totalTropas m - (ler m i).num_tropas + decInt (ler m i).num_tropas := by
  unfold decTropas
  rw [totalTropas_set m i _ h]

theorem totalTropas_setTropas (m : Mapa) (i : Nat) (n : Int) (h : i < m.length) :
    totalTropas (setTropas m i n) = totalTropas m - (ler m i).num_tropas + n := by
  unfold setTropas
  rw [totalTropas_set m i _ h]

theorem totalTropas_setCor (m : Mapa) (i : Nat) (c : String) (h : i < m.length) :
    totalTropas (setCor m i c) = totalTropas m := by
  unfold setCor
  rw [totalTropas_set m i _ h]
  simp

/-- In an accepted attack the two cells are distinct cells of the map. -/
theorem ataqueAceito_indices (mapa : Mapa) (idOrigem idDestino : Int) (corJogador : String)
    (hlen : mapa.length = NUM_TERRITORIOS)
    (h : ataqueAceito mapa idOrigem idDestino corJogador) :
    idOrigem.toNat < mapa.length ∧ idDestino.toNat < mapa.length ∧
      idOrigem.toNat ≠ idDestino.toNat := by
  obtain ⟨⟨h1, h2, h3, h4⟩, hc1, hc2, _⟩ := h
  unfold NUM_TERRITORIOS at *
  refine ⟨by omega, by omega, ?_⟩
  intro he
  rw [he] at hc1
  exact hc2 hc1

/-- C3 (amended): after an accepted attack on a map of `int` troop counts whose
defender is above `INT_MIN`, the sum of the troop counts is exactly one less
than before, with or without a conquest, and a territory whose owner changed
is the defender, and a conquest was announced. -/
theorem simularAtaque_total (mapa : Mapa) (idOrigem idDestino : Int)
    (corJogador : String) (r1 r2 : Nat)
    (hlen : mapa.length = NUM_TERRITORIOS) (hint : tropasInt mapa)
    (h : ataqueAceito mapa idOrigem idDestino corJogador)
    (hmin : (ler mapa idDestino.toNat).num_tropas ≠ INT_MIN) :
    totalTropas (simularAtaque mapa idOrigem idDestino corJogador r1 r2).2
        = totalTropas mapa - 1 ∧
      ∀ k : Nat,
        (ler (simularAtaque mapa idOrigem idDestino corJogador r1 r2).2 k).cor_exercito
            ≠ (ler mapa k).cor_exercito →
          k = idDestino.toNat ∧
            houveConquista (simularAtaque mapa idOrigem idDestino corJogador r1 r2).1
              = true := by
  obtain ⟨ho, hd, hod⟩ := ataqueAceito_indices mapa idOrigem idDestino corJogador hlen h
  have hdo : idDestino.toNat ≠ idOrigem.toNat := fun e => hod e.symm
  have hto := hint _ (ler_mem mapa _ ho)
  have htd := hint _ (ler_mem mapa _ hd)
  have ht1 : 1 < (ler mapa idOrigem.toNat).num_tropas := h.2.2.2
  rw [simularAtaque_aceito_conquista mapa idOrigem idDestino corJogador r1 r2 h,
    simularAtaque_aceito_mapa mapa idOrigem idDestino corJogador r1 r2 h]
  unfold INT_MIN at hmin htd hto
  unfold INT_MAX at htd hto
  unfold aposDados
  by_cases hw : dado r1 > dado r2
  · simp only [hw, if_true]
    have e1 : (ler (decTropas mapa idDestino.toNat) idDestino.toNat).num_tropas
        = (ler mapa idDestino.toNat).num_tropas - 1 := by
      simp only [ler_decTropas, hd, and_self, if_true]
      unfold decInt; omega
    by_cases hz : (ler (decTropas mapa idDestino.toNat) idDestino.toNat).num_tropas = 0
    · simp only [hz, if_true]
      constructor
      · rw [totalTropas_decTropas _ _ (by simpa [length_setTropas, length_setCor,
            length_decTropas] using ho),
          totalTropas_setTropas _ _ _ (by simpa [length_setCor, length_decTropas] using hd),
          totalTropas_setCor _ _ _ (by simpa [length_decTropas] using hd),
          totalTropas_decTropas _ _ hd]
        simp only [ler_setTropas, ler_setCor, ler_decTropas, length_setCor, length_decTropas,
          hd, hdo, hod, false_and, and_self, if_true, if_false]
        unfold decInt at *
        omega
      · intro k hk
        by_contra hne
        apply hk
        have hkd : ¬ idDestino.toNat = k := fun e => hne ⟨e.symm, trivial⟩
        simp only [ler_decTropas, ler_setTropas, ler_setCor, length_setTropas, length_setCor,
          length_decTropas, hd, ho, hkd, false_and, if_false, and_true]
        split <;> simp_all
    · simp only [hz, if_false]
      constructor
      · rw [totalTropas_decTropas _ _ hd]
        unfold decInt; omega
      · intro k hk
        exfalso; apply hk
        simp only [ler_decTropas]
        split <;> simp_all
  · simp only [hw, if_false]
    have e1 : (ler (decTropas mapa idOrigem.toNat) idDestino.toNat).num_tropas
        = (ler mapa idDestino.toNat).num_tropas := by
      simp only [ler_decTropas, hod, false_and, if_false]
    by_cases hz : (ler (decTropas mapa idOrigem.toNat) idDestino.toNat).num_tropas = 0
    · simp only [hz, if_true]
      constructor
      · rw [totalTropas_decTropas _ _ (by simpa [length_setTropas, length_setCor,
            length_decTropas] using ho),
          totalTropas_setTropas _ _ _ (by simpa [length_setCor, length_decTropas] using hd),
          totalTropas_setCor _ _ _ (by simpa [length_decTropas] using hd),
          totalTropas_decTropas _ _ ho]
        simp only [ler_setTropas, ler_setCor, ler_decTropas, length_setCor, length_decTropas,
          hd, ho, hdo, hod, false_and, and_self, if_true, if_false]
        rw [e1] at hz
        unfold decInt at *
        omega
      · intro k hk
        by_contra hne
        apply hk
        have hkd : ¬ idDestino.toNat = k := fun e => hne ⟨e.symm, trivial⟩
        simp only [ler_decTropas, ler_setTropas, ler_setCor, length_setTropas, length_setCor,
          length_decTropas, hd, ho, hkd, false_and, if_false, and_true]
        split <;> simp_all
    · simp only [hz, if_false]
      constructor
      · rw [totalTropas_decTropas _ _ ho]
        unfold decInt; omega
      · intro k hk
        exfalso; apply hk
        simp only [ler_decTropas]
        split <;> simp_all

theorem simularAtaque_total_witness :
    totalTropas (simularAtaque mapaCenario 0 2 AZUL 5 0).2 = totalTropas mapaCenario - 1 ∧
      (2 = (2 : Int).toNat ∧
        houveConquista (simularAtaque mapaCenario 0 2 AZUL 5 0).1 = true) :=
  ⟨(simularAtaque_total mapaCenario 0 2 AZUL 5 0 (by decide) (by decide) (by decide)
      (by decide)).1,
    (simularAtaque_total mapaCenario 0 2 AZUL 5 0 (by decide) (by decide) (by decide)
      (by decide)).2 2 (by decide)⟩

/-- C3 as written fails: in the scenario map, the accepted attack from 0 into 2
with dice 6 against 1 announces a conquest and the sum of the troop counts
goes down by one, not by two. -/
theorem simularAtaque_total_contra :
    ataqueAceito mapaCenario 0 2 AZUL ∧ dado 5 = 6 ∧ dado 0 = 1 ∧
      houveConquista (simularAtaque mapaCenario 0 2 AZUL 5 0).1 = true ∧
      totalTropas mapaCenario = 31 ∧
      totalTropas (simularAtaque mapaCenario 0 2 AZUL 5 0).2 = 30 ∧
      totalTropas (simularAtaque mapaCenario 0 2 AZUL 5 0).2 ≠ totalTropas mapaCenario - 2 := by
  decide

/-- The map is returned as it was when one of the four checks fails. -/
theorem simularAtaque_nao_aceito (mapa : Mapa) (idOrigem idDestino : Int)
    (corJogador : String) (r1 r2 : Nat)
    (h : ¬ ataqueAceito mapa idOrigem idDestino corJogador) :
    (simularAtaque mapa idOrigem idDestino corJogador r1 r2).2 = mapa := by
  unfold simularAtaque
  split
  · rfl
  · rename_i hr
    split
    · rfl
    · rename_i h1
      split
      · rfl
      · rename_i h2
        split
        · rfl
        · rename_i h3
          exfalso
          apply h
          unfold ataqueAceito
          refine ⟨by omega, not_not.mp h1, h2, by omega⟩

/-- The effect of a won roll that empties the defender. -/
theorem simularAtaque_vence (mapa : Mapa) (idOrigem idDestino : Int)
    (corJogador : String) (r1 r2 : Nat)
    (hlen : mapa.length = NUM_TERRITORIOS)
    (h : ataqueAceito mapa idOrigem idDestino corJogador)
    (hw : dado r1 > dado r2) (hone : (ler mapa idDestino.toNat).num_tropas = 1) :
    houveConquista (simularAtaque mapa idOrigem idDestino corJogador r1 r2).1 = true ∧
      ler (simularAtaque mapa idOrigem idDestino corJogador r1 r2).2 idDestino.toNat
        = { ler mapa idDestino.toNat with cor_exercito := corJogador, num_tropas := 1 } ∧
      ler (simularAtaque mapa idOrigem idDestino corJogador r1 r2).2 idOrigem.toNat
        = { ler mapa idOrigem.toNat with
            num_tropas := decInt (ler mapa idOrigem.toNat).num_tropas } := by
  obtain ⟨ho, hd, hod⟩ := ataqueAceito_indices mapa idOrigem idDestino corJogador hlen h
  have hdo : idDestino.toNat ≠ idOrigem.toNat := fun e => hod e.symm
  have hz : (ler (aposDados mapa idOrigem.toNat idDestino.toNat r1 r2) idDestino.toNat).num_tropas
      = 0 := by
    unfold aposDados
    simp only [hw, if_true, ler_decTropas, hd, and_self, hone]
    decide
  rw [simularAtaque_aceito_conquista mapa idOrigem idDestino corJogador r1 r2 h,
    simularAtaque_aceito_mapa mapa idOrigem idDestino corJogador r1 r2 h, if_pos hz]
  refine ⟨hz, ?_, ?_⟩
  · unfold aposDados
    simp only [hw, if_true, ler_decTropas, ler_setTropas, ler_setCor, length_setTropas,
      length_setCor, length_decTropas, hd, ho, hod, hdo, false_and, and_self, if_true, if_false]
  · unfold aposDados
    simp only [hw, if_true, ler_decTropas, ler_setTropas, ler_setCor, length_setTropas,
      length_setCor, length_decTropas, hd, ho, hod, hdo, false_and, and_self, if_true, if_false]

/-- The effect of a lost roll against a defender that is not at zero. -/
theorem simularAtaque_perde (mapa : Mapa) (idOrigem idDestino : Int)
    (corJogador : String) (r1 r2 : Nat)
    (hlen : mapa.length = NUM_TERRITORIOS)
    (h : ataqueAceito mapa idOrigem idDestino corJogador)
    (hw : dado r1 ≤ dado r2) (hne : (ler mapa idDestino.toNat).num_tropas ≠ 0) :
    houveConquista (simularAtaque mapa idOrigem idDestino corJogador r1 r2).1 = false ∧
      ler (simularAtaque mapa idOrigem idDestino corJogador r1 r2).2 idDestino.toNat
        = ler mapa idDestino.toNat ∧
      ler (simularAtaque mapa idOrigem idDestino corJogador r1 r2).2 idOrigem.toNat
        = { ler mapa idOrigem.toNat with
            num_tropas := decInt (ler mapa idOrigem.toNat).num_tropas } := by
  obtain ⟨ho, hd, hod⟩ := ataqueAceito_indices mapa idOrigem idDestino corJogador hlen h
  have hw2 : ¬ dado r1 > dado r2 := not_lt.mpr hw
  have hz : ¬ (ler (aposDados mapa idOrigem.toNat idDestino.toNat r1 r2) idDestino.toNat).num_tropas
      = 0 := by
    unfold aposDados
    simp only [hw2, if_false, ler_decTropas, hod, false_and]
    exact hne
  have hc := simularAtaque_aceito_conquista mapa idOrigem idDestino corJogador r1 r2 h
  rw [simularAtaque_aceito_mapa mapa idOrigem idDestino corJogador r1 r2 h, if_neg hz]
  refine ⟨?_, ?_, ?_⟩
  · cases hb : houveConquista (simularAtaque mapa idOrigem idDestino corJogador r1 r2).1
    · rfl
    · exact absurd (hc.mp hb) hz
  · unfold aposDados
    simp only [hw2, if_false, ler_decTropas, hod, false_and]
  · unfold aposDados
    simp only [hw2, if_false, ler_decTropas, ho, and_self, if_true]

/-- The scenario of the specification makes the attack from 0 into 2 accepted. -/
theorem cenario_aceito (mapa : Mapa) (corJogador : String)
    (hcor : corJogador ≠ VERMELHO)
    (h0c : (ler mapa 0).cor_exercito = corJogador) (h0t : (ler mapa 0).num_tropas = 5)
    (h2c : (ler mapa 2).cor_exercito = VERMELHO) :
    ataqueAceito mapa 0 2 corJogador := by
  have e0 : (0 : Int).toNat = 0 := rfl
  have e2 : (2 : Int).toNat = 2 := rfl
  unfold ataqueAceito NUM_TERRITORIOS
  rw [e0, e2, h0c, h0t, h2c]
  refine ⟨by decide, rfl, fun e => hcor e.symm, by decide⟩

/-- C4 (amended): conquest scenario.  With cell 0 the player's with 5 troops and
cell 2 owned by Vermelho with 1 troop, the attack from 0 into 2 with dice 6
against 1 announces a conquest, cell 2 becomes the player's with 1 troop, and
cell 0 ends with 4 troops (only the relocated troop leaves it). -/
theorem simularAtaque_cenario_conquista (mapa : Mapa) (corJogador : String) (r1 r2 : Nat)
    (hlen : mapa.length = NUM_TERRITORIOS) (hcor : corJogador ≠ VERMELHO)
    (h0c : (ler mapa 0).cor_exercito = corJogador) (h0t : (ler mapa 0).num_tropas = 5)
    (h2c : (ler mapa 2).cor_exercito = VERMELHO) (h2t : (ler mapa 2).num_tropas = 1)
    (hr1 : dado r1 = 6) (hr2 : dado r2 = 1) :
    houveConquista (simularAtaque mapa 0 2 corJogador r1 r2).1 = true ∧
      (ler (simularAtaque mapa 0 2 corJogador r1 r2).2 2).cor_exercito = corJogador ∧
      (ler (simularAtaque mapa 0 2 corJogador r1 r2).2 2).num_tropas = 1 ∧
      (ler (simularAtaque mapa 0 2 corJogador r1 r2).2 2).nome = (ler mapa 2).nome ∧
      (ler (simularAtaque mapa 0 2 corJogador r1 r2).2 0).num_tropas = 4 := by
  have hac := cenario_aceito mapa corJogador hcor h0c h0t h2c
  have hw : dado r1 > dado r2 := by rw [hr1, hr2]; decide
  have e0 : (0 : Int).toNat = 0 := rfl
  have e2 : (2 : Int).toNat = 2 := rfl
  obtain ⟨hc, hd, ho⟩ := simularAtaque_vence mapa 0 2 corJogador r1 r2 hlen hac hw
    (by rw [e2]; exact h2t)
  rw [e2] at hd
  rw [e0] at ho
  refine ⟨hc, ?_, ?_, ?_, ?_⟩
  · rw [hd]
  · rw [hd]
  · rw [hd]
  · rw [ho, h0t]
    show decInt 5 = 4
    decide

theorem simularAtaque_cenario_conquista_witness :
    houveConquista (simularAtaque mapaCenario 0 2 AZUL 5 0).1 = true ∧
      (ler (simularAtaque mapaCenario 0 2 AZUL 5 0).2 2).cor_exercito = AZUL ∧
      (ler (simularAtaque mapaCenario 0 2 AZUL 5 0).2 2).num_tropas = 1 ∧
      (ler (simularAtaque mapaCenario 0 2 AZUL 5 0).2 2).nome = (ler mapaCenario 2).nome ∧
      (ler (simularAtaque mapaCenario 0 2 AZUL 5 0).2 0).num_tropas = 4 :=
  simularAtaque_cenario_conquista mapaCenario AZUL 5 0 (by decide) (by decide) (by decide)
    (by decide) (by decide) (by decide) (by decide) (by decide)

/-- C4 as written fails: in the scenario map (cell 0 Azul with 5 troops, cell 2
Vermelho with 1 troop) the attack from 0 into 2 with dice 6 against 1 leaves
cell 0 with 4 troops, not 3. -/
theorem simularAtaque_cenario_conquista_contra :
    ler mapaCenario 0 = ⟨"Brasil", AZUL, 5⟩ ∧ ler mapaCenario 2 = ⟨"Peru", VERMELHO, 1⟩ ∧
      dado 5 = 6 ∧ dado 0 = 1 ∧
      ler (simularAtaque mapaCenario 0 2 AZUL 5 0).2 2 = ⟨"Peru", AZUL, 1⟩ ∧
      (ler (simularAtaque mapaCenario 0 2 AZUL 5 0).2 0).num_tropas = 4 ∧
      (ler (simularAtaque mapaCenario 0 2 AZUL 5 0).2 0).num_tropas ≠ 3 := by
  decide

/-- C5: lost roll.  For every accepted attack (from a cell whose count is a C
`int`) whose attack die is at most the defence die, on a defender with at
least one troop, no conquest is announced,
the attacker has exactly one troop less and the defender cell is as it was;
in particular, with cell 0 the player's with 5 troops and cell 2 owned by
Vermelho with 1 troop, dice 1 against 6 leave cell 0 with 4 troops and cell 2
unchanged. -/
theorem simularAtaque_derrota :
    (∀ (mapa : Mapa) (idOrigem idDestino : Int) (corJogador : String) (r1 r2 : Nat),
      mapa.length = NUM_TERRITORIOS →
      (ler mapa idOrigem.toNat).num_tropas ≤ INT_MAX →
      ataqueAceito mapa idOrigem idDestino corJogador →
      dado r1 ≤ dado r2 →
      1 ≤ (ler mapa idDestino.toNat).num_tropas →
      houveConquista (simularAtaque mapa idOrigem idDestino corJogador r1 r2).1 = false ∧
        (ler (simularAtaque mapa idOrigem idDestino corJogador r1 r2).2
            idOrigem.toNat).num_tropas
          = (ler mapa idOrigem.toNat).num_tropas - 1 ∧
        ler (simularAtaque mapa idOrigem idDestino corJogador r1 r2).2 idDestino.toNat
          = ler mapa idDestino.toNat) ∧
    (∀ (mapa : Mapa) (corJogador : String) (r1 r2 : Nat),
      mapa.length = NUM_TERRITORIOS → corJogador ≠ VERMELHO →
      (ler mapa 0).cor_exercito = corJogador → (ler mapa 0).num_tropas = 5 →
      (ler mapa 2).cor_exercito = VERMELHO → (ler mapa 2).num_tropas = 1 →
      dado r1 = 1 → dado r2 = 6 →
      houveConquista (simularAtaque mapa 0 2 corJogador r1 r2).1 = false ∧
        (ler (simularAtaque mapa 0 2 corJogador r1 r2).2 0).num_tropas = 4 ∧
        ler (simularAtaque mapa 0 2 corJogador r1 r2).2 2 = ler mapa 2) := by
  have geral : ∀ (mapa : Mapa) (idOrigem idDestino : Int) (corJogador : String) (r1 r2 : Nat),
      mapa.length = NUM_TERRITORIOS →
      (ler mapa idOrigem.toNat).num_tropas ≤ INT_MAX →
      ataqueAceito mapa idOrigem idDestino corJogador →
      dado r1 ≤ dado r2 →
      1 ≤ (ler mapa idDestino.toNat).num_tropas →
      houveConquista (simularAtaque mapa idOrigem idDestino corJogador r1 r2).1 = false ∧
        (ler (simularAtaque mapa idOrigem idDestino corJogador r1 r2).2
            idOrigem.toNat).num_tropas
          = (ler mapa idOrigem.toNat).num_tropas - 1 ∧
        ler (simularAtaque mapa idOrigem idDestino corJogador r1 r2).2 idDestino.toNat
          = ler mapa idDestino.toNat := by
    intro mapa idOrigem idDestino corJogador r1 r2 hlen hmax hac hw hdt
    obtain ⟨hc, hd, ho⟩ := simularAtaque_perde mapa idOrigem idDestino corJogador r1 r2 hlen
      hac hw (by omega)
    refine ⟨hc, ?_, hd⟩
    rw [ho]
    have ht1 : 1 < (ler mapa idOrigem.toNat).num_tropas := hac.2.2.2
    exact decInt_eq _ (by unfold INT_MIN; omega) hmax
  refine ⟨geral, ?_⟩
  intro mapa corJogador r1 r2 hlen hcor h0c h0t h2c h2t hr1 hr2
  have hac := cenario_aceito mapa corJogador hcor h0c h0t h2c
  have e0 : (0 : Int).toNat = 0 := rfl
  have e2 : (2 : Int).toNat = 2 := rfl
  have hg := geral mapa 0 2 corJogador r1 r2 hlen (by rw [e0, h0t]; decide) hac
    (by rw [hr1, hr2]; decide) (by rw [e2, h2t])
  rw [e0, e2, h0t] at hg
  exact ⟨hg.1, by rw [hg.2.1]; decide, hg.2.2⟩

theorem simularAtaque_derrota_witness :
    (houveConquista (simularAtaque mapaCenario 1 5 AZUL 2 2).1 = false ∧
      (ler (simularAtaque mapaCenario 1 5 AZUL 2 2).2 (1 : Int).toNat).num_tropas
        = (ler mapaCenario (1 : Int).toNat).num_tropas - 1 ∧
      ler (simularAtaque mapaCenario 1 5 AZUL 2 2).2 (5 : Int).toNat
        = ler mapaCenario (5 : Int).toNat) ∧
    (houveConquista (simularAtaque mapaCenario 0 2 AZUL 0 5).1 = false ∧
      (ler (simularAtaque mapaCenario 0 2 AZUL 0 5).2 0).num_tropas = 4 ∧
      ler (simularAtaque mapaCenario 0 2 AZUL 0 5).2 2 = ler mapaCenario 2) :=
  ⟨simularAtaque_derrota.1 mapaCenario 1 5 AZUL 2 2 (by decide) (by decide) (by decide)
      (by decide) (by decide),
    simularAtaque_derrota.2 mapaCenario AZUL 0 5 (by decide) (by decide) (by decide)
      (by decide) (by decide) (by decide) (by decide) (by decide)⟩

/-! ## Frame of an attack -/

theorem nome_decTropas (m : Mapa) (i j : Nat) :
    (ler (decTropas m i) j).nome = (ler m j).nome := by
  rw [ler_decTropas]
  split
  · rename_i h; rw [← h.1]
  · rfl

theorem nome_setTropas (m : Mapa) (i j : Nat) (n : Int) :
    (ler (setTropas m i n) j).nome = (ler m j).nome := by
  rw [ler_setTropas]
  split
  · rename_i h; rw [← h.1]
  · rfl

theorem nome_setCor (m : Mapa) (i j : Nat) (c : String) :
    (ler (setCor m i c) j).nome = (ler m j).nome := by
  rw [ler_setCor]
  split
  · rename_i h; rw [← h.1]
  · rfl

theorem cor_decTropas (m : Mapa) (i j : Nat) :
    (ler (decTropas m i) j).cor_exercito = (ler m j).cor_exercito := by
  rw [ler_decTropas]
  split
  · rename_i h; rw [← h.1]
  · rfl

theorem cor_setTropas (m : Mapa) (i j : Nat) (n : Int) :
    (ler (setTropas m i n) j).cor_exercito = (ler m j).cor_exercito := by
  rw [ler_setTropas]
  split
  · rename_i h; rw [← h.1]
  · rfl

theorem ler_decTropas_ne (m : Mapa) (i j : Nat) (h : i ≠ j) :
    ler (decTropas m i) j = ler m j := by
  rw [ler_decTropas, if_neg (fun hh => h hh.1)]

theorem ler_setTropas_ne (m : Mapa) (i j : Nat) (n : Int) (h : i ≠ j) :
    ler (setTropas m i n) j = ler m j := by
  rw [ler_setTropas, if_neg (fun hh => h hh.1)]

theorem ler_setCor_ne (m : Mapa) (i j : Nat) (c : String) (h : i ≠ j) :
    ler (setCor m i c) j = ler m j := by
  rw [ler_setCor, if_neg (fun hh => h hh.1)]

theorem length_aposDados (m : Mapa) (o d r1 r2 : Nat) :
    (aposDados m o d r1 r2).length = m.length := by
  unfold aposDados
  split <;> exact length_decTropas _ _

theorem nome_aposDados (m : Mapa) (o d r1 r2 j : Nat) :
    (ler (aposDados m o d r1 r2) j).nome = (ler m j).nome := by
  unfold aposDados
  split <;> exact nome_decTropas _ _ _

theorem cor_aposDados (m : Mapa) (o d r1 r2 j : Nat) :
    (ler (aposDados m o d r1 r2) j).cor_exercito = (ler m j).cor_exercito := by
  unfold aposDados
  split <;> exact cor_decTropas _ _ _

theorem ler_aposDados_ne (m : Mapa) (o d r1 r2 j : Nat) (ho : o ≠ j) (hd : d ≠ j) :
    ler (aposDados m o d r1 r2) j = ler m j := by
  unfold aposDados
  split
  · exact ler_decTropas_ne _ _ _ hd
  · exact ler_decTropas_ne _ _ _ ho

/-- C10: frame of `simularAtaque`.  On a map of ten cells, for every indices,
colour and `rand()` values: every cell at an index other than `idOrigem` and
`idDestino` is exactly as before; the owner of the cell `idOrigem` is as
before; every name is as before; and the map still has ten cells. -/
theorem simularAtaque_frame (mapa : Mapa) (idOrigem idDestino : Int)
    (corJogador : String) (r1 r2 : Nat) (hlen : mapa.length = 10) :
    (∀ k : Nat, (k : Int) ≠ idOrigem → (k : Int) ≠ idDestino →
        ler (simularAtaque mapa idOrigem idDestino corJogador r1 r2).2 k = ler mapa k) ∧
      (ler (simularAtaque mapa idOrigem idDestino corJogador r1 r2).2
          idOrigem.toNat).cor_exercito = (ler mapa idOrigem.toNat).cor_exercito ∧
      (∀ k : Nat, (ler (simularAtaque mapa idOrigem idDestino corJogador r1 r2).2 k).nome
        = (ler mapa k).nome) ∧
      (simularAtaque mapa idOrigem idDestino corJogador r1 r2).2.length = 10 := by
  by_cases h : ataqueAceito mapa idOrigem idDestino corJogador
  · obtain ⟨ho, hd, hod⟩ := ataqueAceito_indices mapa idOrigem idDestino corJogador hlen h
    have hdo : idDestino.toNat ≠ idOrigem.toNat := fun e => hod e.symm
    have eo : (idOrigem.toNat : Int) = idOrigem := Int.toNat_of_nonneg h.1.1
    have ed : (idDestino.toNat : Int) = idDestino := Int.toNat_of_nonneg h.1.2.2.1
    rw [simularAtaque_aceito_mapa mapa idOrigem idDestino corJogador r1 r2 h]
    split
    · refine ⟨?_, ?_, ?_, ?_⟩
      · intro k hko hkd
        have h1 : idOrigem.toNat ≠ k := fun e => hko (by rw [← e, eo])
        have h2 : idDestino.toNat ≠ k := fun e => hkd (by rw [← e, ed])
        rw [ler_decTropas_ne _ _ _ h1, ler_setTropas_ne _ _ _ _ h2, ler_setCor_ne _ _ _ _ h2,
          ler_aposDados_ne _ _ _ _ _ _ h1 h2]
      · rw [cor_decTropas, cor_setTropas, ler_setCor_ne _ _ _ _ hdo, cor_aposDados]
      · intro k
        rw [nome_decTropas, nome_setTropas, nome_setCor, nome_aposDados]
      · rw [length_decTropas, length_setTropas, length_setCor, length_aposDados, hlen]
    · refine ⟨?_, ?_, ?_, ?_⟩
      · intro k hko hkd
        have h1 : idOrigem.toNat ≠ k := fun e => hko (by rw [← e, eo])
        have h2 : idDestino.toNat ≠ k := fun e => hkd (by rw [← e, ed])
        exact ler_aposDados_ne _ _ _ _ _ _ h1 h2
      · exact cor_aposDados _ _ _ _ _ _
      · intro k
        exact nome_aposDados _ _ _ _ _ _
      · rw [length_aposDados, hlen]
  · rw [simularAtaque_nao_aceito mapa idOrigem idDestino corJogador r1 r2 h]
    exact ⟨fun _ _ _ => rfl, rfl, fun _ => rfl, hlen⟩

theorem simularAtaque_frame_witness :
    mapaCenario.length = 10 ∧
      ler (simularAtaque mapaCenario 0 2 AZUL 5 0).2 1 = ler mapaCenario 1 ∧
      (ler (simularAtaque mapaCenario 0 2 AZUL 5 0).2 (0 : Int).toNat).cor_exercito
        = (ler mapaCenario (0 : Int).toNat).cor_exercito ∧
      (ler (simularAtaque mapaCenario 0 2 AZUL 5 0).2 2).nome = (ler mapaCenario 2).nome ∧
      (simularAtaque mapaCenario 0 2 AZUL 5 0).2.length = 10 :=
  ⟨by decide,
    (simularAtaque_frame mapaCenario 0 2 AZUL 5 0 (by decide)).1 1 (by decide) (by decide),
    (simularAtaque_frame mapaCenario 0 2 AZUL 5 0 (by decide)).2.1,
    (simularAtaque_frame mapaCenario 0 2 AZUL 5 0 (by decide)).2.2.1 2,
    (simularAtaque_frame mapaCenario 0 2 AZUL 5 0 (by decide)).2.2.2⟩

/-! ## Missions -/

theorem semCor_cons (x : Territorio) (l : Mapa) (cor : String) (n i : Nat) :
    semCor (x :: l) cor (i + 1) n = semCor l cor i n := by
  induction n generalizing i with
  | zero => rfl
  | succ n ih => simp only [semCor, ler_cons_succ, ih]

theorem semCor_length (l : Mapa) (cor : String) :
    semCor l cor 0 l.length = if ∃ t ∈ l, t.cor_exercito = cor then 0 else 1 := by
  induction l with
  | nil => simp [semCor]
  | cons x l ih =>
    simp only [List.length_cons, semCor, ler_cons_zero, semCor_cons, ih]
    by_cases hx : x.cor_exercito = cor
    · simp [hx]
    · simp [hx]

theorem contarCor_cons (x : Territorio) (l : Mapa) (cor : String) (n i : Nat) (acc : Int) :
    contarCor (x :: l) cor (i + 1) acc n = contarCor l cor i acc n := by
  induction n generalizing i acc with
  | zero => rfl
  | succ n ih => simp only [contarCor, ler_cons_succ, ih]

theorem contarCor_length (l : Mapa) (cor : String) (acc : Int) :
    contarCor l cor 0 acc l.length = acc + (numTerritorios l cor : Int) := by
  induction l generalizing acc with
  | nil => simp [contarCor, numTerritorios]
  | cons x l ih =>
    simp only [List.length_cons, contarCor, ler_cons_zero, contarCor_cons, ih, numTerritorios]
    by_cases hx : x.cor_exercito = cor
    · simp [hx, List.countP_cons]
      omega
    · simp [hx, List.countP_cons]

theorem contarCor_mono (m m2 : Mapa) (cor : String) (n : Nat) :
    ∀ (i : Nat) (a b : Int), a ≤ b →
      (∀ k, i ≤ k → k < i + n →
        (ler m k).cor_exercito = cor → (ler m2 k).cor_exercito = cor) →
      contarCor m cor i a n ≤ contarCor m2 cor i b n := by
  induction n with
  | zero => intro i a b hab _; exact hab
  | succ n ih =>
    intro i a b hab hk
    have hrest : ∀ k, i + 1 ≤ k → k < i + 1 + n →
        (ler m k).cor_exercito = cor → (ler m2 k).cor_exercito = cor :=
      fun k h1 h2 => hk k (by omega) (by omega)
    simp only [contarCor]
    by_cases h1 : (ler m i).cor_exercito = cor
    · have h2 := hk i (Nat.le_refl i) (by omega) h1
      rw [if_pos h1, if_pos h2]
      exact ih (i + 1) (a + 1) (b + 1) (by omega) hrest
    · rw [if_neg h1]
      split
      · exact ih (i + 1) a (b + 1) (by omega) hrest
      · exact ih (i + 1) a b hab hrest

/-- C6: on a map of ten cells, for every player colour, `verificarVitoria`
with mission 0 returns 1 exactly when no territory is owned by Vermelho (and 0
otherwise), and with mission 2 returns 1 exactly when no territory is owned by
Verde (and 0 otherwise). -/
theorem verificarVitoria_eliminar (mapa : Mapa) (corJogador : String)
    (hlen : mapa.length = 10) :
    (verificarVitoria mapa 0 corJogador = 1 ↔ ∀ t ∈ mapa, t.cor_exercito ≠ VERMELHO) ∧
      (verificarVitoria mapa 0 corJogador = 0 ↔ ∃ t ∈ mapa, t.cor_exercito = VERMELHO) ∧
      (verificarVitoria mapa 2 corJogador = 1 ↔ ∀ t ∈ mapa, t.cor_exercito ≠ VERDE) ∧
      (verificarVitoria mapa 2 corJogador = 0 ↔ ∃ t ∈ mapa, t.cor_exercito = VERDE) := by
  have e0 : verificarVitoria mapa 0 corJogador = semCor mapa VERMELHO 0 mapa.length := by
    rw [hlen]; rfl
  have e2 : verificarVitoria mapa 2 corJogador = semCor mapa VERDE 0 mapa.length := by
    rw [hlen]; rfl
  rw [e0, e2, semCor_length, semCor_length]
  refine ⟨?_, ?_, ?_, ?_⟩
  · by_cases h : ∃ t ∈ mapa, t.cor_exercito = VERMELHO
    · rw [if_pos h]
      constructor
      · intro hh; exact absurd hh (by decide)
      · intro hh
        obtain ⟨t, ht, hc⟩ := h
        exact absurd hc (hh t ht)
    · rw [if_neg h]
      constructor
      · intro _ t ht hc; exact h ⟨t, ht, hc⟩
      · intro _; rfl
  · by_cases h : ∃ t ∈ mapa, t.cor_exercito = VERMELHO
    · rw [if_pos h]; exact ⟨fun _ => h, fun _ => rfl⟩
    · rw [if_neg h]; exact ⟨fun hh => absurd hh (by decide), fun hh => absurd hh h⟩
  · by_cases h : ∃ t ∈ mapa, t.cor_exercito = VERDE
    · rw [if_pos h]
      constructor
      · intro hh; exact absurd hh (by decide)
      · intro hh
        obtain ⟨t, ht, hc⟩ := h
        exact absurd hc (hh t ht)
    · rw [if_neg h]
      constructor
      · intro _ t ht hc; exact h ⟨t, ht, hc⟩
      · intro _; rfl
  · by_cases h : ∃ t ∈ mapa, t.cor_exercito = VERDE
    · rw [if_pos h]; exact ⟨fun _ => h, fun _ => rfl⟩
    · rw [if_neg h]; exact ⟨fun hh => absurd hh (by decide), fun hh => absurd hh h⟩

theorem verificarVitoria_eliminar_witness :
    (verificarVitoria mapaCenario 0 AZUL = 1 ↔ ∀ t ∈ mapaCenario, t.cor_exercito ≠ VERMELHO) ∧
      (verificarVitoria mapaCenario 0 AZUL = 0 ↔
        ∃ t ∈ mapaCenario, t.cor_exercito = VERMELHO) ∧
      (verificarVitoria mapaCenario 2 AZUL = 1 ↔ ∀ t ∈ mapaCenario, t.cor_exercito ≠ VERDE) ∧
      (verificarVitoria mapaCenario 2 AZUL = 0 ↔ ∃ t ∈ mapaCenario, t.cor_exercito = VERDE) :=
  verificarVitoria_eliminar mapaCenario AZUL (by decide)

/-- The value of `verificarVitoria` for mission 1 on a map of ten cells. -/
theorem verificarVitoria_um (mapa : Mapa) (corJogador : String) (hlen : mapa.length = 10) :
    verificarVitoria mapa 1 corJogador
      = if (numTerritorios mapa corJogador : Int) ≥ 6 then 1 else 0 := by
  have e : verificarVitoria mapa 1 corJogador
      = if contarCor mapa corJogador 0 0 mapa.length ≥ 6 then 1 else 0 := by
    rw [hlen]; rfl
  rw [e, contarCor_length, Int.zero_add]

/-- C7: on a map of ten cells, `verificarVitoria` with mission 1 returns 1
exactly when the player owns at least six territories (and 0 otherwise); and
when it returns 1 for a map it returns 1 for every map of ten cells in which
each territory either keeps its owner or has become the player's. -/
theorem verificarVitoria_conquistar (mapa : Mapa) (corJogador : String)
    (hlen : mapa.length = 10) :
    (verificarVitoria mapa 1 corJogador = 1 ↔ 6 ≤ numTerritorios mapa corJogador) ∧
      (verificarVitoria mapa 1 corJogador = 0 ↔ numTerritorios mapa corJogador < 6) ∧
      ∀ mapa2 : Mapa, mapa2.length = 10 →
        (∀ k : Nat, k < 10 →
          (ler mapa2 k).cor_exercito = (ler mapa k).cor_exercito ∨
            (ler mapa2 k).cor_exercito = corJogador) →
        verificarVitoria mapa 1 corJogador = 1 → verificarVitoria mapa2 1 corJogador = 1 := by
  refine ⟨?_, ?_, ?_⟩
  · rw [verificarVitoria_um mapa corJogador hlen]
    split
    · constructor
      · intro _; omega
      · intro _; rfl
    · constructor
      · intro hh; exact absurd hh (by decide)
      · intro hh; omega
  · rw [verificarVitoria_um mapa corJogador hlen]
    split
    · constructor
      · intro hh; exact absurd hh (by decide)
      · intro hh; omega
    · constructor
      · intro _; omega
      · intro _; rfl
  · intro mapa2 hlen2 hk hv
    have hmono := contarCor_mono mapa mapa2 corJogador 10 0 0 0 (Int.le_refl 0)
      (fun k _ h2 hc => by
        rcases hk k (by omega) with h | h
        · rw [h]; exact hc
        · exact h)
    have e1 := contarCor_length mapa corJogador 0
    have e2 := contarCor_length mapa2 corJogador 0
    rw [hlen] at e1
    rw [hlen2] at e2
    rw [e1, e2] at hmono
    rw [verificarVitoria_um mapa corJogador hlen] at hv
    rw [verificarVitoria_um mapa2 corJogador hlen2]
    split at hv
    · rw [if_pos (by omega)]
    · exact absurd hv (by decide)

theorem verificarVitoria_conquistar_witness :
    mapaSeis.length = 10 ∧ verificarVitoria mapaSeis 1 AZUL = 1 ∧
      6 ≤ numTerritorios mapaSeis AZUL ∧ verificarVitoria mapaSete 1 AZUL = 1 :=
  ⟨by decide, by decide,
    (verificarVitoria_conquistar mapaSeis AZUL (by decide)).1.mp (by decide),
    (verificarVitoria_conquistar mapaSeis AZUL (by decide)).2.2 mapaSete (by decide)
      (by decide) (by decide)⟩

/-- C8: for every mission id other than 0, 1 and 2 (negative ids included),
every map and every player colour, `verificarVitoria` returns 0. -/
theorem verificarVitoria_desconhecida (mapa : Mapa) (idMissao : Int) (corJogador : String)
    (h0 : idMissao ≠ 0) (h1 : idMissao ≠ 1) (h2 : idMissao ≠ 2) :
    verificarVitoria mapa idMissao corJogador = 0 := by
  unfold verificarVitoria
  rw [if_neg h0, if_neg h1, if_neg h2]

theorem verificarVitoria_desconhecida_witness :
    verificarVitoria mapaSeis (-1) AZUL = 0 :=
  verificarVitoria_desconhecida mapaSeis (-1) AZUL (by decide) (by decide) (by decide)

/-- C9: when `rand()` returns 1, `sortearMissao` yields mission 1, which
`exibirMissao` describes as conquering six territories; the initial map has
ten territories of which Azul owns exactly two (the first two cells), and
`verificarVitoria` for that mission on the initial map returns 0. -/
theorem missao_inicial :
    sortearMissao 1 = 1 ∧
      exibirMissao (sortearMissao 1) = "Conquistar 6 territorios no total." ∧
      (inicializarTerritorios alocarMapa).length = 10 ∧
      numTerritorios (inicializarTerritorios alocarMapa) AZUL = 2 ∧
      verificarVitoria (inicializarTerritorios alocarMapa) (sortearMissao 1) AZUL = 0 := by
  decide

/-! ## Shape of the map after an accepted attack -/

theorem mapa_ext (m m2 : Mapa) (hl : m.length = m2.length)
    (h : ∀ k, k < m.length → ler m k = ler m2 k) : m = m2 := by
  apply List.ext_getElem hl
  intro k h1 h2
  have := h k h1
  unfold ler at this
  simpa [List.getD_eq_getElem?_getD, List.getElem?_eq_getElem h1,
    List.getElem?_eq_getElem h2] using this

theorem dado_faixa (r : Nat) : 1 ≤ dado r ∧ dado r ≤ 6 := by
  unfold dado
  omega

theorem dado_sobre (v : Int) (h1 : 1 ≤ v) (h6 : v ≤ 6) : ∃ r : Nat, dado r = v := by
  refine ⟨(v - 1).toNat, ?_⟩
  unfold dado
  omega

/-- The map after an accepted attack is the map before it with the cells of
the attacker and of the defender replaced, in one of four ways: a won roll
with or without conquest, a lost roll with or without conquest. -/
theorem simularAtaque_forma (mapa : Mapa) (idOrigem idDestino : Int)
    (corJogador : String) (r1 r2 : Nat)
    (hlen : mapa.length = NUM_TERRITORIOS)
    (h : ataqueAceito mapa idOrigem idDestino corJogador) :
    ∃ (nA nB : Int) (cB : String),
      (simularAtaque mapa idOrigem idDestino corJogador r1 r2).2
        = (mapa.set idOrigem.toNat { ler mapa idOrigem.toNat with num_tropas := nA }).set
            idDestino.toNat
            { ler mapa idDestino.toNat with cor_exercito := cB, num_tropas := nB } ∧
      ((dado r1 > dado r2 ∧ decInt (ler mapa idDestino.toNat).num_tropas ≠ 0 ∧
          nA = (ler mapa idOrigem.toNat).num_tropas ∧
          nB = decInt (ler mapa idDestino.toNat).num_tropas ∧
          cB = (ler mapa idDestino.toNat).cor_exercito ∧
          houveConquista (simularAtaque mapa idOrigem idDestino corJogador r1 r2).1 = false) ∨
        (dado r1 > dado r2 ∧ decInt (ler mapa idDestino.toNat).num_tropas = 0 ∧
          nA = decInt (ler mapa idOrigem.toNat).num_tropas ∧ nB = 1 ∧ cB = corJogador ∧
          houveConquista (simularAtaque mapa idOrigem idDestino corJogador r1 r2).1 = true) ∨
        (dado r1 ≤ dado r2 ∧ (ler mapa idDestino.toNat).num_tropas ≠ 0 ∧
          nA = decInt (ler mapa idOrigem.toNat).num_tropas ∧
          nB = (ler mapa idDestino.toNat).num_tropas ∧
          cB = (ler mapa idDestino.toNat).cor_exercito ∧
          houveConquista (simularAtaque mapa idOrigem idDestino corJogador r1 r2).1 = false) ∨
        (dado r1 ≤ dado r2 ∧ (ler mapa idDestino.toNat).num_tropas = 0 ∧
          nA = decInt (decInt (ler mapa idOrigem.toNat).num_tropas) ∧ nB = 1 ∧
          cB = corJogador ∧
          houveConquista (simularAtaque mapa idOrigem idDestino corJogador r1 r2).1 = true)) := by
  obtain ⟨ho, hd, hod⟩ := ataqueAceito_indices mapa idOrigem idDestino corJogador hlen h
  have hdo : idDestino.toNat ≠ idOrigem.toNat := fun e => hod e.symm
  have hconq := simularAtaque_aceito_conquista mapa idOrigem idDestino corJogador r1 r2 h
  have hmapa := simularAtaque_aceito_mapa mapa idOrigem idDestino corJogador r1 r2 h
  have hfalse : ∀ b : Bool, ¬ (b = true) → b = false := by
    intro b hb; cases b
    · rfl
    · exact absurd rfl hb
  by_cases hw : dado r1 > dado r2
  · have hap : aposDados mapa idOrigem.toNat idDestino.toNat r1 r2
        = decTropas mapa idDestino.toNat := by
      unfold aposDados; rw [if_pos hw]
    have htd : (ler (aposDados mapa idOrigem.toNat idDestino.toNat r1 r2)
        idDestino.toNat).num_tropas = decInt (ler mapa idDestino.toNat).num_tropas := by
      rw [hap, ler_decTropas, if_pos ⟨rfl, hd⟩]
    rw [htd] at hconq hmapa
    by_cases hz : decInt (ler mapa idDestino.toNat).num_tropas = 0
    · refine ⟨decInt (ler mapa idOrigem.toNat).num_tropas, 1, corJogador, ?_,
        Or.inr (Or.inl ⟨hw, hz, rfl, rfl, rfl, hconq.mpr hz⟩)⟩
      rw [hmapa, if_pos hz, hap]
      apply mapa_ext
      · simp [length_decTropas, length_setTropas, length_setCor]
      · intro k _
        simp only [ler_decTropas, ler_setTropas, ler_setCor, ler_set, length_setTropas,
          length_setCor, length_decTropas, List.length_set, hd, ho, hod, hdo, false_and,
          and_self, if_true, if_false, and_true]
        by_cases hk1 : idOrigem.toNat = k
        · subst hk1; simp [hdo]
        · by_cases hk2 : idDestino.toNat = k
          · subst hk2; simp [hk1]
          · simp [hk1, hk2]
    · refine ⟨(ler mapa idOrigem.toNat).num_tropas,
        decInt (ler mapa idDestino.toNat).num_tropas, (ler mapa idDestino.toNat).cor_exercito,
        ?_, Or.inl ⟨hw, hz, rfl, rfl, rfl, hfalse _ (fun hb => hz (hconq.mp hb))⟩⟩
      rw [hmapa, if_neg hz, hap]
      apply mapa_ext
      · simp [length_decTropas]
      · intro k _
        simp only [ler_decTropas, ler_set, List.length_set, hd, ho, and_true]
        by_cases hk1 : idOrigem.toNat = k
        · subst hk1; simp [hdo]
        · by_cases hk2 : idDestino.toNat = k
          · subst hk2; simp [hk1]
          · simp [hk1, hk2]
  · have hle : dado r1 ≤ dado r2 := not_lt.mp hw
    have hap : aposDados mapa idOrigem.toNat idDestino.toNat r1 r2
        = decTropas mapa idOrigem.toNat := by
      unfold aposDados; rw [if_neg hw]
    have htd : (ler (aposDados mapa idOrigem.toNat idDestino.toNat r1 r2)
        idDestino.toNat).num_tropas = (ler mapa idDestino.toNat).num_tropas := by
      rw [hap, ler_decTropas_ne _ _ _ hod]
    rw [htd] at hconq hmapa
    by_cases hz : (ler mapa idDestino.toNat).num_tropas = 0
    · refine ⟨decInt (decInt (ler mapa idOrigem.toNat).num_tropas), 1, corJogador, ?_,
        Or.inr (Or.inr (Or.inr ⟨hle, hz, rfl, rfl, rfl, hconq.mpr hz⟩))⟩
      rw [hmapa, if_pos hz, hap]
      apply mapa_ext
      · simp [length_decTropas, length_setTropas, length_setCor]
      · intro k _
        simp only [ler_decTropas, ler_setTropas, ler_setCor, ler_set, length_setTropas,
          length_setCor, length_decTropas, List.length_set, hd, ho, hod, hdo, false_and,
          and_self, if_true, if_false, and_true]
        by_cases hk1 : idOrigem.toNat = k
        · subst hk1; simp [hdo]
        · by_cases hk2 : idDestino.toNat = k
          · subst hk2; simp [hk1]
          · simp [hk1, hk2]
    · refine ⟨decInt (ler mapa idOrigem.toNat).num_tropas,
        (ler mapa idDestino.toNat).num_tropas, (ler mapa idDestino.toNat).cor_exercito,
        ?_, Or.inr (Or.inr (Or.inl ⟨hle, hz, rfl, rfl, rfl,
          hfalse _ (fun hb => hz (hconq.mp hb))⟩))⟩
      rw [hmapa, if_neg hz, hap]
      apply mapa_ext
      · simp [length_decTropas]
      · intro k _
        simp only [ler_decTropas, ler_set, List.length_set, hd, ho, and_true]
        by_cases hk1 : idOrigem.toNat = k
        · subst hk1; simp [hdo]
        · by_cases hk2 : idDestino.toNat = k
          · subst hk2; simp [hk1]
          · simp [hk1, hk2]

theorem soma_set (f : Territorio → Int) (m : Mapa) (i : Nat) (x : Territorio)
    (h : i < m.length) :
    ((m.set i x).map f).sum = (m.map f).sum - f (ler m i) + f x := by
  induction m generalizing i with
  | nil => simp at h
  | cons a l ih =>
    cases i with
    | zero =>
      simp only [List.set_cons_zero, List.map_cons, List.sum_cons, ler_cons_zero]
      omega
    | succ j =>
      have hj : j < l.length := by simpa using h
      have := ih j hj
      simp only [List.set_cons_succ, List.map_cons, List.sum_cons, ler_cons_succ, this]
      omega

/-- Sum of a quantity over a map in which two distinct cells were replaced. -/
theorem soma_set_set (f : Territorio → Int) (m : Mapa) (o d : Nat) (a b : Territorio)
    (ho : o < m.length) (hd : d < m.length) (hod : o ≠ d) :
    (((m.set o a).set d b).map f).sum
      = (m.map f).sum - f (ler m o) - f (ler m d) + f a + f b := by
  rw [soma_set f (m.set o a) d b (by simpa using hd), soma_set f m o a ho, ler_set,
    if_neg (fun hh => hod hh.1)]
  omega

theorem ler_set_set (m : Mapa) (o d k : Nat) (a b : Territorio)
    (ho : o < m.length) (hd : d < m.length) :
    ler ((m.set o a).set d b) k = if d = k then b else if o = k then a else ler m k := by
  rw [ler_set, ler_set]
  simp only [List.length_set, hd, ho, and_true]

theorem mem_set_set (m : Mapa) (o d : Nat) (a b t : Territorio)
    (h : t ∈ (m.set o a).set d b) : t = a ∨ t = b ∨ t ∈ m := by
  rcases List.mem_or_eq_of_mem_set h with h1 | h1
  · rcases List.mem_or_eq_of_mem_set h1 with h2 | h2
    · exact Or.inr (Or.inr h2)
    · exact Or.inl h2
  · exact Or.inr (Or.inl h1)

/-- The lines printed by an accepted attack. -/
theorem simularAtaque_aceito_saida (mapa : Mapa) (idOrigem idDestino : Int)
    (corJogador : String) (r1 r2 : Nat)
    (h : ataqueAceito mapa idOrigem idDestino corJogador) :
    (simularAtaque mapa idOrigem idDestino corJogador r1 r2).1 =
      [Mensagem.batalha (ler mapa idOrigem.toNat).nome (ler mapa idDestino.toNat).nome,
        Mensagem.dadoAtaque (dado r1), Mensagem.dadoDefesa (dado r2),
        if dado r1 > dado r2 then Mensagem.vitoriaAtacante else Mensagem.vitoriaDefensor] ++
      if (ler (aposDados mapa idOrigem.toNat idDestino.toNat r1 r2) idDestino.toNat).num_tropas
          = 0 then
        [Mensagem.conquistado
          (ler (aposDados mapa idOrigem.toNat idDestino.toNat r1 r2) idDestino.toNat).nome]
      else [] := by
  obtain ⟨⟨h1, h2, h3, h4⟩, hc1, hc2, ht⟩ := h
  unfold simularAtaque aposDados
  have hr : ¬ (idOrigem < 0 ∨ idOrigem ≥ (NUM_TERRITORIOS : Int) ∨ idDestino < 0 ∨
      idDestino ≥ (NUM_TERRITORIOS : Int)) := by omega
  rw [if_neg hr, if_neg (not_not.mpr hc1), if_neg hc2, if_neg (not_le.mpr ht)]
  by_cases hd : dado r1 > dado r2
  · simp only [hd, if_true]
    split <;> simp
  · simp only [hd, if_false]
    split <;> simp

/-- The single line printed when one of the four checks fails. -/
theorem simularAtaque_nao_aceito_saida (mapa : Mapa) (idOrigem idDestino : Int)
    (corJogador : String) (r1 r2 : Nat)
    (h : ¬ ataqueAceito mapa idOrigem idDestino corJogador) :
    (simularAtaque mapa idOrigem idDestino corJogador r1 r2).1 = [Mensagem.erroIdInvalido] ∨
      (simularAtaque mapa idOrigem idDestino corJogador r1 r2).1 = [Mensagem.erroNaoDono] ∨
      (simularAtaque mapa idOrigem idDestino corJogador r1 r2).1 = [Mensagem.erroJaSeu] ∨
      (simularAtaque mapa idOrigem idDestino corJogador r1 r2).1
        = [Mensagem.erroPoucasTropas] := by
  unfold simularAtaque
  split
  · exact Or.inl rfl
  · rename_i hr
    split
    · exact Or.inr (Or.inl rfl)
    · rename_i h1
      split
      · exact Or.inr (Or.inr (Or.inl rfl))
      · rename_i h2
        split
        · exact Or.inr (Or.inr (Or.inr rfl))
        · rename_i h3
          exfalso
          apply h
          unfold ataqueAceito
          refine ⟨by omega, not_not.mp h1, h2, by omega⟩

theorem simularAtaque_length (mapa : Mapa) (idOrigem idDestino : Int)
    (corJogador : String) (r1 r2 : Nat) (hlen : mapa.length = NUM_TERRITORIOS) :
    (simularAtaque mapa idOrigem idDestino corJogador r1 r2).2.length = NUM_TERRITORIOS := by
  by_cases h : ataqueAceito mapa idOrigem idDestino corJogador
  · obtain ⟨nA, nB, cB, he, _⟩ :=
      simularAtaque_forma mapa idOrigem idDestino corJogador r1 r2 hlen h
    rw [he]
    simpa using hlen
  · rw [simularAtaque_nao_aceito mapa idOrigem idDestino corJogador r1 r2 h]
    exact hlen

/-! ## Order of the checks -/

/-- C11: `simularAtaque` reports the error of the first failing check, in the
order range, attacker owned by the player, defender not owned by the player,
attacker with more than one troop: an index out of range prints only the
invalid-id error; in range, an attacker that is not the player's prints only
the not-owner error (whoever owns the defender); an attacker of the player
against a defender of the player prints only the own-territory error (however
few troops the attacker has); only after these does a count of at most one
print the too-few-troops error.  The battle takes place exactly when all four
checks pass. -/
theorem simularAtaque_ordem (mapa : Mapa) (idOrigem idDestino : Int)
    (corJogador : String) (r1 r2 : Nat) :
    ((idOrigem < 0 ∨ 10 ≤ idOrigem ∨ idDestino < 0 ∨ 10 ≤ idDestino) →
        (simularAtaque mapa idOrigem idDestino corJogador r1 r2).1
          = [Mensagem.erroIdInvalido]) ∧
      ((0 ≤ idOrigem ∧ idOrigem < 10 ∧ 0 ≤ idDestino ∧ idDestino < 10) →
        ((ler mapa idOrigem.toNat).cor_exercito ≠ corJogador →
          (simularAtaque mapa idOrigem idDestino corJogador r1 r2).1
            = [Mensagem.erroNaoDono]) ∧
        ((ler mapa idOrigem.toNat).cor_exercito = corJogador →
          (ler mapa idDestino.toNat).cor_exercito = corJogador →
          (simularAtaque mapa idOrigem idDestino corJogador r1 r2).1
            = [Mensagem.erroJaSeu]) ∧
        ((ler mapa idOrigem.toNat).cor_exercito = corJogador →
          (ler mapa idDestino.toNat).cor_exercito ≠ corJogador →
          (ler mapa idOrigem.toNat).num_tropas ≤ 1 →
          (simularAtaque mapa idOrigem idDestino corJogador r1 r2).1
            = [Mensagem.erroPoucasTropas])) ∧
      (houveBatalha (simularAtaque mapa idOrigem idDestino corJogador r1 r2).1 = true ↔
        ataqueAceito mapa idOrigem idDestino corJogador) := by
  refine ⟨?_, ?_, ?_⟩
  · intro hr
    unfold simularAtaque NUM_TERRITORIOS
    rw [if_pos (by simpa using hr)]
  · intro hr
    have hr2 : ¬ (idOrigem < 0 ∨ idOrigem ≥ ((10 : Nat) : Int) ∨ idDestino < 0 ∨
        idDestino ≥ ((10 : Nat) : Int)) := by
      simp only [Nat.cast_ofNat]; omega
    refine ⟨?_, ?_, ?_⟩
    · intro h1
      unfold simularAtaque NUM_TERRITORIOS
      rw [if_neg hr2, if_pos h1]
    · intro h1 h2
      unfold simularAtaque NUM_TERRITORIOS
      rw [if_neg hr2, if_neg (not_not.mpr h1), if_pos h2]
    · intro h1 h2 h3
      unfold simularAtaque NUM_TERRITORIOS
      rw [if_neg hr2, if_neg (not_not.mpr h1), if_neg h2, if_pos h3]
  · constructor
    · intro hb
      by_contra hna
      rcases simularAtaque_nao_aceito_saida mapa idOrigem idDestino corJogador r1 r2 hna
        with e | e | e | e <;> rw [e] at hb <;> exact absurd hb (by decide)
    · intro hac
      rw [simularAtaque_aceito_saida mapa idOrigem idDestino corJogador r1 r2 hac]
      simp [houveBatalha]

theorem simularAtaque_ordem_witness :
    (simularAtaque mapaCenario (-1) 3 AZUL 5 0).1 = [Mensagem.erroIdInvalido] ∧
      (simularAtaque mapaCenario 2 0 AZUL 5 0).1 = [Mensagem.erroNaoDono] ∧
      (simularAtaque mapaSeis 2 0 AZUL 5 0).1 = [Mensagem.erroJaSeu] ∧
      (simularAtaque mapaSeis 2 7 AZUL 5 0).1 = [Mensagem.erroPoucasTropas] ∧
      houveBatalha (simularAtaque mapaCenario 0 2 AZUL 5 0).1 = true :=
  ⟨(simularAtaque_ordem mapaCenario (-1) 3 AZUL 5 0).1 (by decide),
    ((simularAtaque_ordem mapaCenario 2 0 AZUL 5 0).2.1 (by decide)).1 (by decide),
    ((simularAtaque_ordem mapaSeis 2 0 AZUL 5 0).2.1 (by decide)).2.1 (by decide) (by decide),
    ((simularAtaque_ordem mapaSeis 2 7 AZUL 5 0).2.1 (by decide)).2.2 (by decide) (by decide)
      (by decide),
    (simularAtaque_ordem mapaCenario 0 2 AZUL 5 0).2.2.mpr (by decide)⟩

/-! ## The roll -/

/-- C12: ties favour the defender.  In an accepted attack on a map of ten
cells of `int` troop counts (defender above `INT_MIN`), the call is the roll
step followed by the conquest check; with equal dice the roll step leaves the
defender cell as it was, takes exactly one troop from the attacker and prints
the defender-wins line; and the roll step takes one troop from the defender
exactly when the attack die is greater than the defence die.  With equal dice
and a defender not at zero, that is also the map returned. -/
theorem simularAtaque_empate (mapa : Mapa) (idOrigem idDestino : Int)
    (corJogador : String) (r1 r2 : Nat)
    (hlen : mapa.length = 10) (hint : tropasInt mapa)
    (h : ataqueAceito mapa idOrigem idDestino corJogador)
    (hmin : (ler mapa idDestino.toNat).num_tropas ≠ INT_MIN) :
    ((simularAtaque mapa idOrigem idDestino corJogador r1 r2).2 =
        if (ler (aposDados mapa idOrigem.toNat idDestino.toNat r1 r2)
            idDestino.toNat).num_tropas = 0 then
          decTropas (setTropas (setCor (aposDados mapa idOrigem.toNat idDestino.toNat r1 r2)
            idDestino.toNat corJogador) idDestino.toNat 1) idOrigem.toNat
        else aposDados mapa idOrigem.toNat idDestino.toNat r1 r2) ∧
      (dado r1 = dado r2 →
        ler (aposDados mapa idOrigem.toNat idDestino.toNat r1 r2) idDestino.toNat
            = ler mapa idDestino.toNat ∧
          (ler (aposDados mapa idOrigem.toNat idDestino.toNat r1 r2)
              idOrigem.toNat).num_tropas = (ler mapa idOrigem.toNat).num_tropas - 1 ∧
          Mensagem.vitoriaDefensor ∈ (simularAtaque mapa idOrigem idDestino corJogador r1 r2).1 ∧
          Mensagem.vitoriaAtacante ∉
            (simularAtaque mapa idOrigem idDestino corJogador r1 r2).1) ∧
      ((ler (aposDados mapa idOrigem.toNat idDestino.toNat r1 r2) idDestino.toNat).num_tropas
          = (ler mapa idDestino.toNat).num_tropas - 1 ↔ dado r1 > dado r2) ∧
      (dado r1 = dado r2 → (ler mapa idDestino.toNat).num_tropas ≠ 0 →
        ler (simularAtaque mapa idOrigem idDestino corJogador r1 r2).2 idDestino.toNat
            = ler mapa idDestino.toNat ∧
          (ler (simularAtaque mapa idOrigem idDestino corJogador r1 r2).2
              idOrigem.toNat).num_tropas = (ler mapa idOrigem.toNat).num_tropas - 1) := by
  obtain ⟨ho, hd, hod⟩ := ataqueAceito_indices mapa idOrigem idDestino corJogador hlen h
  have hto := hint _ (ler_mem mapa _ ho)
  have htd := hint _ (ler_mem mapa _ hd)
  have ht1 : 1 < (ler mapa idOrigem.toNat).num_tropas := h.2.2.2
  have hdecO : decInt (ler mapa idOrigem.toNat).num_tropas
      = (ler mapa idOrigem.toNat).num_tropas - 1 :=
    decInt_eq _ (by unfold INT_MIN; omega) hto.2
  have hdecD : decInt (ler mapa idDestino.toNat).num_tropas
      = (ler mapa idDestino.toNat).num_tropas - 1 :=
    decInt_eq _ (lt_of_le_of_ne htd.1 (fun e => hmin e.symm)) htd.2
  refine ⟨simularAtaque_aceito_mapa mapa idOrigem idDestino corJogador r1 r2 h, ?_, ?_, ?_⟩
  · intro heq
    have hw : ¬ dado r1 > dado r2 := by omega
    have hap : aposDados mapa idOrigem.toNat idDestino.toNat r1 r2
        = decTropas mapa idOrigem.toNat := by
      unfold aposDados; rw [if_neg hw]
    refine ⟨?_, ?_, ?_, ?_⟩
    · rw [hap, ler_decTropas_ne _ _ _ hod]
    · rw [hap, ler_decTropas, if_pos ⟨rfl, ho⟩]
      exact hdecO
    · rw [simularAtaque_aceito_saida mapa idOrigem idDestino corJogador r1 r2 h, if_neg hw]
      simp
    · rw [simularAtaque_aceito_saida mapa idOrigem idDestino corJogador r1 r2 h, if_neg hw]
      split <;> simp
  · by_cases hw : dado r1 > dado r2
    · have hap : aposDados mapa idOrigem.toNat idDestino.toNat r1 r2
          = decTropas mapa idDestino.toNat := by
        unfold aposDados; rw [if_pos hw]
      rw [hap, ler_decTropas, if_pos ⟨rfl, hd⟩]
      exact ⟨fun _ => hw, fun _ => hdecD⟩
    · have hap : aposDados mapa idOrigem.toNat idDestino.toNat r1 r2
          = decTropas mapa idOrigem.toNat := by
        unfold aposDados; rw [if_neg hw]
      rw [hap, ler_decTropas_ne _ _ _ hod]
      constructor
      · intro e; omega
      · intro e; exact absurd e hw
  · intro heq hne
    obtain ⟨_, h2, h3⟩ := simularAtaque_perde mapa idOrigem idDestino corJogador r1 r2 hlen h
      (by omega) hne
    refine ⟨h2, ?_⟩
    rw [h3]
    exact hdecO

theorem simularAtaque_empate_witness :
    (ler (aposDados mapaCenario (1 : Int).toNat (5 : Int).toNat 2 2) (5 : Int).toNat
          = ler mapaCenario (5 : Int).toNat ∧
        (ler (aposDados mapaCenario (1 : Int).toNat (5 : Int).toNat 2 2)
            (1 : Int).toNat).num_tropas = (ler mapaCenario (1 : Int).toNat).num_tropas - 1 ∧
        Mensagem.vitoriaDefensor ∈ (simularAtaque mapaCenario 1 5 AZUL 2 2).1 ∧
        Mensagem.vitoriaAtacante ∉ (simularAtaque mapaCenario 1 5 AZUL 2 2).1) ∧
      (ler (simularAtaque mapaCenario 1 5 AZUL 2 2).2 (5 : Int).toNat
          = ler mapaCenario (5 : Int).toNat ∧
        (ler (simularAtaque mapaCenario 1 5 AZUL 2 2).2 (1 : Int).toNat).num_tropas
          = (ler mapaCenario (1 : Int).toNat).num_tropas - 1) :=
  ⟨(simularAtaque_empate mapaCenario 1 5 AZUL 2 2 (by decide) (by decide) (by decide)
      (by decide)).2.1 (by decide),
    (simularAtaque_empate mapaCenario 1 5 AZUL 2 2 (by decide) (by decide) (by decide)
      (by decide)).2.2.2 (by decide) (by decide)⟩

/-! ## One attack on a map with at least one troop everywhere -/

/-- On a map whose cells all hold at least one troop, an accepted attack has
three outcomes: a won roll without conquest (defender had two or more), a won
roll with conquest (defender had one), a lost roll. -/
theorem simularAtaque_forma_pos (mapa : Mapa) (idOrigem idDestino : Int)
    (corJogador : String) (r1 r2 : Nat)
    (hlen : mapa.length = NUM_TERRITORIOS) (hpos : tropasPositivas mapa)
    (h : ataqueAceito mapa idOrigem idDestino corJogador) :
    ∃ (nA nB : Int) (cB : String),
      (simularAtaque mapa idOrigem idDestino corJogador r1 r2).2
        = (mapa.set idOrigem.toNat { ler mapa idOrigem.toNat with num_tropas := nA }).set
            idDestino.toNat
            { ler mapa idDestino.toNat with cor_exercito := cB, num_tropas := nB } ∧
      ((dado r1 > dado r2 ∧ 2 ≤ (ler mapa idDestino.toNat).num_tropas ∧
          nA = (ler mapa idOrigem.toNat).num_tropas ∧
          nB = (ler mapa idDestino.toNat).num_tropas - 1 ∧
          cB = (ler mapa idDestino.toNat).cor_exercito ∧
          houveConquista (simularAtaque mapa idOrigem idDestino corJogador r1 r2).1 = false) ∨
        (dado r1 > dado r2 ∧ (ler mapa idDestino.toNat).num_tropas = 1 ∧
          nA = (ler mapa idOrigem.toNat).num_tropas - 1 ∧ nB = 1 ∧ cB = corJogador ∧
          houveConquista (simularAtaque mapa idOrigem idDestino corJogador r1 r2).1 = true) ∨
        (dado r1 ≤ dado r2 ∧
          nA = (ler mapa idOrigem.toNat).num_tropas - 1 ∧
          nB = (ler mapa idDestino.toNat).num_tropas ∧
          cB = (ler mapa idDestino.toNat).cor_exercito ∧
          houveConquista (simularAtaque mapa idOrigem idDestino corJogador r1 r2).1
            = false)) := by
  obtain ⟨ho, hd, hod⟩ := ataqueAceito_indices mapa idOrigem idDestino corJogador hlen h
  have hto := hpos _ (ler_mem mapa _ ho)
  have htd := hpos _ (ler_mem mapa _ hd)
  have ht1 : 1 < (ler mapa idOrigem.toNat).num_tropas := h.2.2.2
  have hdecO : decInt (ler mapa idOrigem.toNat).num_tropas
      = (ler mapa idOrigem.toNat).num_tropas - 1 :=
    decInt_eq _ (by unfold INT_MIN; omega) hto.2
  have hdecD : decInt (ler mapa idDestino.toNat).num_tropas
      = (ler mapa idDestino.toNat).num_tropas - 1 :=
    decInt_eq _ (by unfold INT_MIN; omega) htd.2
  obtain ⟨nA, nB, cB, he, hc⟩ :=
    simularAtaque_forma mapa idOrigem idDestino corJogador r1 r2 hlen h
  refine ⟨nA, nB, cB, he, ?_⟩
  rcases hc with ⟨hw, hz, hA, hB, hC, hq⟩ | ⟨hw, hz, hA, hB, hC, hq⟩ |
    ⟨hw, hz, hA, hB, hC, hq⟩ | ⟨hw, hz, hA, hB, hC, hq⟩
  · rw [hdecD] at hz hB
    exact Or.inl ⟨hw, by omega, hA, hB, hC, hq⟩
  · rw [hdecD] at hz
    rw [hdecO] at hA
    exact Or.inr (Or.inl ⟨hw, by omega, hA, hB, hC, hq⟩)
  · rw [hdecO] at hA
    exact Or.inr (Or.inr ⟨hw, hA, hB, hC, hq⟩)
  · exfalso; omega

theorem simularAtaque_passo_pos (mapa : Mapa) (idOrigem idDestino : Int)
    (corJogador : String) (r1 r2 : Nat)
    (hlen : mapa.length = NUM_TERRITORIOS) (hpos : tropasPositivas mapa) :
    tropasPositivas (simularAtaque mapa idOrigem idDestino corJogador r1 r2).2 := by
  by_cases h : ataqueAceito mapa idOrigem idDestino corJogador
  · obtain ⟨ho, hd, hod⟩ := ataqueAceito_indices mapa idOrigem idDestino corJogador hlen h
    have hto := hpos _ (ler_mem mapa _ ho)
    have htd := hpos _ (ler_mem mapa _ hd)
    have ht1 : 1 < (ler mapa idOrigem.toNat).num_tropas := h.2.2.2
    obtain ⟨nA, nB, cB, he, hc⟩ :=
      simularAtaque_forma_pos mapa idOrigem idDestino corJogador r1 r2 hlen hpos h
    rw [he]
    intro t ht
    unfold INT_MAX at *
    rcases mem_set_set _ _ _ _ _ _ ht with e | e | e
    · rw [e]
      show 1 ≤ nA ∧ nA ≤ 2147483647
      rcases hc with ⟨_, _, hA, _⟩ | ⟨_, _, hA, _⟩ | ⟨_, hA, _⟩ <;> omega
    · rw [e]
      show 1 ≤ nB ∧ nB ≤ 2147483647
      rcases hc with ⟨_, _, _, hB, _⟩ | ⟨_, _, _, hB, _⟩ | ⟨_, _, hB, _⟩ <;> omega
    · exact hpos t e
  · rw [simularAtaque_nao_aceito mapa idOrigem idDestino corJogador r1 r2 h]
    exact hpos

theorem simularAtaque_passo_total (mapa : Mapa) (idOrigem idDestino : Int)
    (corJogador : String) (r1 r2 : Nat)
    (hlen : mapa.length = NUM_TERRITORIOS) (hpos : tropasPositivas mapa)
    (h : ataqueAceito mapa idOrigem idDestino corJogador) :
    totalTropas (simularAtaque mapa idOrigem idDestino corJogador r1 r2).2
      = totalTropas mapa - 1 := by
  obtain ⟨ho, hd, hod⟩ := ataqueAceito_indices mapa idOrigem idDestino corJogador hlen h
  obtain ⟨nA, nB, cB, he, hc⟩ :=
    simularAtaque_forma_pos mapa idOrigem idDestino corJogador r1 r2 hlen hpos h
  rw [he]
  unfold totalTropas
  rw [soma_set_set Territorio.num_tropas mapa _ _ _ _ ho hd hod]
  show (mapa.map Territorio.num_tropas).sum - (ler mapa idOrigem.toNat).num_tropas
    - (ler mapa idDestino.toNat).num_tropas + nA + nB
      = (mapa.map Territorio.num_tropas).sum - 1
  rcases hc with ⟨_, _, hA, hB, _⟩ | ⟨_, hz, hA, hB, _⟩ | ⟨_, hA, hB, _⟩ <;> omega

/-- Every colour on the map after an attack was on the map before it. -/
theorem simularAtaque_passo_cores (mapa : Mapa) (idOrigem idDestino : Int)
    (corJogador : String) (r1 r2 : Nat) (hlen : mapa.length = NUM_TERRITORIOS) :
    ∀ t ∈ (simularAtaque mapa idOrigem idDestino corJogador r1 r2).2,
      ∃ t0 ∈ mapa, t.cor_exercito = t0.cor_exercito := by
  by_cases h : ataqueAceito mapa idOrigem idDestino corJogador
  · obtain ⟨ho, hd, hod⟩ := ataqueAceito_indices mapa idOrigem idDestino corJogador hlen h
    obtain ⟨nA, nB, cB, he, hc⟩ :=
      simularAtaque_forma mapa idOrigem idDestino corJogador r1 r2 hlen h
    rw [he]
    intro t ht
    rcases mem_set_set _ _ _ _ _ _ ht with e | e | e
    · exact ⟨ler mapa idOrigem.toNat, ler_mem mapa _ ho, by rw [e]⟩
    · have hcB : cB = (ler mapa idDestino.toNat).cor_exercito ∨ cB = corJogador := by
        rcases hc with ⟨_, _, _, _, hC, _⟩ | ⟨_, _, _, _, hC, _⟩ | ⟨_, _, _, _, hC, _⟩ |
          ⟨_, _, _, _, hC, _⟩
        · exact Or.inl hC
        · exact Or.inr hC
        · exact Or.inl hC
        · exact Or.inr hC
      rcases hcB with hC | hC
      · exact ⟨ler mapa idDestino.toNat, ler_mem mapa _ hd, by rw [e, hC]⟩
      · exact ⟨ler mapa idOrigem.toNat, ler_mem mapa _ ho, by rw [e, hC, h.2.1]⟩
    · exact ⟨t, e, rfl⟩
  · rw [simularAtaque_nao_aceito mapa idOrigem idDestino corJogador r1 r2 h]
    intro t ht
    exact ⟨t, ht, rfl⟩

/-- Each cell after an attack has the owner it had or is now the player's. -/
theorem simularAtaque_passo_dono (mapa : Mapa) (idOrigem idDestino : Int)
    (corJogador : String) (r1 r2 : Nat) (hlen : mapa.length = NUM_TERRITORIOS) (k : Nat) :
    (ler (simularAtaque mapa idOrigem idDestino corJogador r1 r2).2 k).cor_exercito
        = (ler mapa k).cor_exercito ∨
      (ler (simularAtaque mapa idOrigem idDestino corJogador r1 r2).2 k).cor_exercito
        = corJogador := by
  by_cases h : ataqueAceito mapa idOrigem idDestino corJogador
  · obtain ⟨ho, hd, hod⟩ := ataqueAceito_indices mapa idOrigem idDestino corJogador hlen h
    obtain ⟨nA, nB, cB, he, hc⟩ :=
      simularAtaque_forma mapa idOrigem idDestino corJogador r1 r2 hlen h
    rw [he, ler_set_set _ _ _ _ _ _ ho hd]
    by_cases hk : idDestino.toNat = k
    · rw [if_pos hk, ← hk]
      rcases hc with ⟨_, _, _, _, hC, _⟩ | ⟨_, _, _, _, hC, _⟩ | ⟨_, _, _, _, hC, _⟩ |
        ⟨_, _, _, _, hC, _⟩
      · exact Or.inl hC
      · exact Or.inr hC
      · exact Or.inl hC
      · exact Or.inr hC
    · rw [if_neg hk]
      by_cases hk2 : idOrigem.toNat = k
      · rw [if_pos hk2, ← hk2]; exact Or.inl rfl
      · rw [if_neg hk2]; exact Or.inl rfl
  · rw [simularAtaque_nao_aceito mapa idOrigem idDestino corJogador r1 r2 h]
    exact Or.inl rfl

theorem simularAtaque_passo_jogador (mapa : Mapa) (idOrigem idDestino : Int)
    (corJogador : String) (r1 r2 : Nat)
    (hlen : mapa.length = NUM_TERRITORIOS) (hint : tropasInt mapa) :
    tropasJogador (simularAtaque mapa idOrigem idDestino corJogador r1 r2).2 corJogador
      ≤ tropasJogador mapa corJogador := by
  by_cases h : ataqueAceito mapa idOrigem idDestino corJogador
  · obtain ⟨ho, hd, hod⟩ := ataqueAceito_indices mapa idOrigem idDestino corJogador hlen h
    have hto := hint _ (ler_mem mapa _ ho)
    have ht1 : 1 < (ler mapa idOrigem.toNat).num_tropas := h.2.2.2
    have hcO : (ler mapa idOrigem.toNat).cor_exercito = corJogador := h.2.1
    have hcD : (ler mapa idDestino.toNat).cor_exercito ≠ corJogador := h.2.2.1
    obtain ⟨nA, nB, cB, he, hc⟩ :=
      simularAtaque_forma mapa idOrigem idDestino corJogador r1 r2 hlen h
    rw [he]
    unfold tropasJogador
    rw [soma_set_set _ mapa _ _ _ _ ho hd hod]
    simp only [hcO, hcD, if_true, if_false]
    unfold INT_MIN INT_MAX at hto
    rcases hc with ⟨_, _, hA, hB, hC, _⟩ | ⟨_, _, hA, hB, hC, _⟩ | ⟨_, _, hA, hB, hC, _⟩ |
      ⟨_, _, hA, hB, hC, _⟩
    · rw [hC, if_neg hcD]; omega
    · rw [hC, if_pos rfl]; unfold decInt at hA; omega
    · rw [hC, if_neg hcD]; unfold decInt at hA; omega
    · rw [hC, if_pos rfl]; unfold decInt at hA; omega
  · rw [simularAtaque_nao_aceito mapa idOrigem idDestino corJogador r1 r2 h]

/-! ## Reachable maps -/

theorem aplicarAtaques_cons (cor : String) (m : Mapa) (a : Ataque) (l : List Ataque) :
    aplicarAtaques cor m (a :: l)
      = aplicarAtaques cor (simularAtaque m a.idOrigem a.idDestino cor a.r1 a.r2).2 l := rfl

/-- A property of maps kept by every attack holds after any sequence of attacks. -/
theorem aplicarAtaques_inv (cor : String) (P : Mapa → Prop)
    (hpasso : ∀ (m : Mapa) (a : Ataque), P m →
      P (simularAtaque m a.idOrigem a.idDestino cor a.r1 a.r2).2)
    (l : List Ataque) : ∀ m : Mapa, P m → P (aplicarAtaques cor m l) := by
  induction l with
  | nil => intro m hm; exact hm
  | cons a l ih =>
    intro m hm
    rw [aplicarAtaques_cons]
    exact ih _ (hpasso m a hm)

theorem tropasPositivas_tropasInt (m : Mapa) (h : tropasPositivas m) : tropasInt m := by
  intro t ht
  have := h t ht
  unfold INT_MIN
  exact ⟨by omega, this.2⟩

/-- From the initial map, every sequence of attacks by any player leaves ten
cells, each with at least one troop. -/
theorem alcancavel_pos (cor : String) (l : List Ataque) :
    (aplicarAtaques cor (inicializarTerritorios alocarMapa) l).length = NUM_TERRITORIOS ∧
      tropasPositivas (aplicarAtaques cor (inicializarTerritorios alocarMapa) l) := by
  apply aplicarAtaques_inv cor
    (fun m => m.length = NUM_TERRITORIOS ∧ tropasPositivas m)
  · intro m a hm
    exact ⟨simularAtaque_length m _ _ cor _ _ hm.1,
      simularAtaque_passo_pos m _ _ cor _ _ hm.1 hm.2⟩
  · exact ⟨by decide, by decide⟩

theorem alcancavel_cores (cor : String) (l : List Ataque) :
    ∀ t ∈ aplicarAtaques cor (inicializarTerritorios alocarMapa) l,
      corValida t.cor_exercito := by
  have key := aplicarAtaques_inv cor
    (fun m => m.length = NUM_TERRITORIOS ∧ ∀ t ∈ m, corValida t.cor_exercito)
    (by
      intro m a hm
      refine ⟨simularAtaque_length m _ _ cor _ _ hm.1, ?_⟩
      intro t ht
      obtain ⟨t0, ht0, e⟩ := simularAtaque_passo_cores m _ _ cor _ _ hm.1 t ht
      rw [e]
      exact hm.2 t0 ht0)
    l (inicializarTerritorios alocarMapa) ⟨by decide, by decide⟩
  exact key.2

/-- C13: in every map reached from the initial scenario by a finite sequence
of `simularAtaque` calls of the player Azul (any ids, any `rand()` values),
every territory has a troop count of at least 0 and an owner among Azul,
Vermelho, Verde and Amarelo; and in every accepted attack from such a map, a
roll that leaves the defender at 0 troops is followed in the same call by the
conquest (the defender becomes Azul with 1 troop), so the defender is never
at 0 troops after the call. -/
theorem alcancavel_invariante (ataques : List Ataque) :
    (∀ t ∈ aplicarAtaques AZUL (inicializarTerritorios alocarMapa) ataques,
        0 ≤ t.num_tropas ∧ corValida t.cor_exercito) ∧
      ∀ (idOrigem idDestino : Int) (r1 r2 : Nat),
        ataqueAceito (aplicarAtaques AZUL (inicializarTerritorios alocarMapa) ataques)
          idOrigem idDestino AZUL →
        ((ler (aposDados (aplicarAtaques AZUL (inicializarTerritorios alocarMapa) ataques)
              idOrigem.toNat idDestino.toNat r1 r2) idDestino.toNat).num_tropas = 0 →
          houveConquista (simularAtaque
              (aplicarAtaques AZUL (inicializarTerritorios alocarMapa) ataques)
              idOrigem idDestino AZUL r1 r2).1 = true ∧
            (ler (simularAtaque
              (aplicarAtaques AZUL (inicializarTerritorios alocarMapa) ataques)
              idOrigem idDestino AZUL r1 r2).2 idDestino.toNat).cor_exercito = AZUL ∧
            (ler (simularAtaque
              (aplicarAtaques AZUL (inicializarTerritorios alocarMapa) ataques)
              idOrigem idDestino AZUL r1 r2).2 idDestino.toNat).num_tropas = 1) ∧
        (ler (simularAtaque
            (aplicarAtaques AZUL (inicializarTerritorios alocarMapa) ataques)
            idOrigem idDestino AZUL r1 r2).2 idDestino.toNat).num_tropas ≠ 0 := by
  obtain ⟨hlen, hpos⟩ := alcancavel_pos AZUL ataques
  refine ⟨?_, ?_⟩
  · intro t ht
    have := hpos t ht
    exact ⟨by omega, alcancavel_cores AZUL ataques t ht⟩
  · intro idOrigem idDestino r1 r2 hac
    obtain ⟨ho, hd, hod⟩ := ataqueAceito_indices _ idOrigem idDestino AZUL hlen hac
    have htd := hpos _ (ler_mem _ _ hd)
    have hconq := simularAtaque_aceito_conquista _ idOrigem idDestino AZUL r1 r2 hac
    obtain ⟨nA, nB, cB, he, hc⟩ :=
      simularAtaque_forma_pos _ idOrigem idDestino AZUL r1 r2 hlen hpos hac
    have hB : ler (simularAtaque
        (aplicarAtaques AZUL (inicializarTerritorios alocarMapa) ataques)
        idOrigem idDestino AZUL r1 r2).2 idDestino.toNat
          = { ler (aplicarAtaques AZUL (inicializarTerritorios alocarMapa) ataques)
                idDestino.toNat with cor_exercito := cB, num_tropas := nB } := by
      rw [he, ler_set_set _ _ _ _ _ _ ho hd, if_pos rfl]
    rw [hB]
    refine ⟨?_, ?_⟩
    · intro hz
      have hq := hconq.mpr hz
      rcases hc with ⟨_, _, _, _, _, hq2⟩ | ⟨_, _, _, hnB, hcB, _⟩ | ⟨_, _, _, _, hq2⟩
      · rw [hq2] at hq; exact absurd hq (by decide)
      · exact ⟨hq, hcB, hnB⟩
      · rw [hq2] at hq; exact absurd hq (by decide)
    · show nB ≠ 0
      rcases hc with ⟨_, _, _, hnB, _⟩ | ⟨_, _, _, hnB, _⟩ | ⟨_, _, hnB, _⟩ <;> omega

theorem alcancavel_invariante_witness :
    (0 ≤ (ler (aplicarAtaques AZUL (inicializarTerritorios alocarMapa) [⟨0, 4, 5, 0⟩])
          4).num_tropas ∧
        corValida (ler (aplicarAtaques AZUL (inicializarTerritorios alocarMapa)
          [⟨0, 4, 5, 0⟩]) 4).cor_exercito) ∧
      (houveConquista (simularAtaque
          (aplicarAtaques AZUL (inicializarTerritorios alocarMapa) [⟨0, 4, 5, 0⟩])
          0 4 AZUL 5 0).1 = true ∧
        (ler (simularAtaque
          (aplicarAtaques AZUL (inicializarTerritorios alocarMapa) [⟨0, 4, 5, 0⟩])
          0 4 AZUL 5 0).2 (4 : Int).toNat).cor_exercito = AZUL ∧
        (ler (simularAtaque
          (aplicarAtaques AZUL (inicializarTerritorios alocarMapa) [⟨0, 4, 5, 0⟩])
          0 4 AZUL 5 0).2 (4 : Int).toNat).num_tropas = 1) ∧
      (ler (simularAtaque
          (aplicarAtaques AZUL (inicializarTerritorios alocarMapa) [⟨0, 4, 5, 0⟩])
          0 4 AZUL 5 0).2 (4 : Int).toNat).num_tropas ≠ 0 :=
  ⟨(alcancavel_invariante [⟨0, 4, 5, 0⟩]).1 _ (by decide),
    ((alcancavel_invariante [⟨0, 4, 5, 0⟩]).2 0 4 5 0 (by decide)).1 (by decide),
    ((alcancavel_invariante [⟨0, 4, 5, 0⟩]).2 0 4 5 0 (by decide)).2⟩

/-- A conquest is announced only by an accepted attack. -/
theorem simularAtaque_conquista_aceito (mapa : Mapa) (idOrigem idDestino : Int)
    (corJogador : String) (r1 r2 : Nat)
    (hq : houveConquista (simularAtaque mapa idOrigem idDestino corJogador r1 r2).1 = true) :
    ataqueAceito mapa idOrigem idDestino corJogador := by
  by_contra hna
  rcases simularAtaque_nao_aceito_saida mapa idOrigem idDestino corJogador r1 r2 hna
    with e | e | e | e <;> rw [e] at hq <;> exact absurd hq (by decide)

/-- After a conquest on a map with at least one troop everywhere: the roll was
won, the defender had one troop and is now the player's with one troop, and
the attacker has one troop less and at least one left. -/
theorem simularAtaque_conquista_pos (mapa : Mapa) (idOrigem idDestino : Int)
    (corJogador : String) (r1 r2 : Nat)
    (hlen : mapa.length = NUM_TERRITORIOS) (hpos : tropasPositivas mapa)
    (hq : houveConquista (simularAtaque mapa idOrigem idDestino corJogador r1 r2).1 = true) :
    dado r1 > dado r2 ∧ (ler mapa idDestino.toNat).num_tropas = 1 ∧
      ler (simularAtaque mapa idOrigem idDestino corJogador r1 r2).2 idDestino.toNat
        = { ler mapa idDestino.toNat with cor_exercito := corJogador, num_tropas := 1 } ∧
      (ler (simularAtaque mapa idOrigem idDestino corJogador r1 r2).2 idOrigem.toNat).num_tropas
        = (ler mapa idOrigem.toNat).num_tropas - 1 ∧
      1 ≤ (ler (simularAtaque mapa idOrigem idDestino corJogador r1 r2).2
        idOrigem.toNat).num_tropas := by
  have h := simularAtaque_conquista_aceito mapa idOrigem idDestino corJogador r1 r2 hq
  obtain ⟨ho, hd, hod⟩ := ataqueAceito_indices mapa idOrigem idDestino corJogador hlen h
  have ht1 : 1 < (ler mapa idOrigem.toNat).num_tropas := h.2.2.2
  obtain ⟨nA, nB, cB, he, hc⟩ :=
    simularAtaque_forma_pos mapa idOrigem idDestino corJogador r1 r2 hlen hpos h
  rcases hc with ⟨_, _, _, _, _, hq2⟩ | ⟨hw, hone, hA, hB, hC, _⟩ | ⟨_, _, _, _, hq2⟩
  · rw [hq2] at hq; exact absurd hq (by decide)
  · rw [he, ler_set_set _ _ _ _ _ _ ho hd, ler_set_set _ _ _ _ _ _ ho hd, if_pos rfl,
      if_neg (fun e => hod e.symm), if_pos rfl, hA, hB, hC]
    exact ⟨hw, hone, rfl, rfl, by show 1 ≤ (ler mapa idOrigem.toNat).num_tropas - 1; omega⟩
  · rw [hq2] at hq; exact absurd hq (by decide)

/-! ## Troop invariant -/

/-- C16: on a map of ten cells in which every territory has at least one troop
(and at most `INT_MAX`), every call of `simularAtaque` returns a map with the
same property, and a conquest happens only on a won roll and leaves the
attacker with at least one troop; hence after every sequence of attacks from
the initial scenario, by any player, every territory has at least one troop
and a further attack that conquers leaves its attacker with at least one
troop. -/
theorem simularAtaque_tropasPositivas :
    (∀ (mapa : Mapa) (idOrigem idDestino : Int) (corJogador : String) (r1 r2 : Nat),
      mapa.length = 10 → tropasPositivas mapa →
      tropasPositivas (simularAtaque mapa idOrigem idDestino corJogador r1 r2).2 ∧
        (houveConquista (simularAtaque mapa idOrigem idDestino corJogador r1 r2).1 = true →
          dado r1 > dado r2 ∧
            1 ≤ (ler (simularAtaque mapa idOrigem idDestino corJogador r1 r2).2
              idOrigem.toNat).num_tropas)) ∧
    (∀ (corJogador : String) (ataques : List Ataque) (idOrigem idDestino : Int)
        (r1 r2 : Nat),
      tropasPositivas (aplicarAtaques corJogador (inicializarTerritorios alocarMapa) ataques) ∧
        (houveConquista (simularAtaque
            (aplicarAtaques corJogador (inicializarTerritorios alocarMapa) ataques)
            idOrigem idDestino corJogador r1 r2).1 = true →
          1 ≤ (ler (simularAtaque
            (aplicarAtaques corJogador (inicializarTerritorios alocarMapa) ataques)
            idOrigem idDestino corJogador r1 r2).2 idOrigem.toNat).num_tropas)) := by
  refine ⟨?_, ?_⟩
  · intro mapa idOrigem idDestino corJogador r1 r2 hlen hpos
    refine ⟨simularAtaque_passo_pos mapa idOrigem idDestino corJogador r1 r2 hlen hpos, ?_⟩
    intro hq
    have := simularAtaque_conquista_pos mapa idOrigem idDestino corJogador r1 r2 hlen hpos hq
    exact ⟨this.1, this.2.2.2.2⟩
  · intro corJogador ataques idOrigem idDestino r1 r2
    obtain ⟨hlen, hpos⟩ := alcancavel_pos corJogador ataques
    refine ⟨hpos, ?_⟩
    intro hq
    exact (simularAtaque_conquista_pos _ idOrigem idDestino corJogador r1 r2 hlen hpos
      hq).2.2.2.2

theorem simularAtaque_tropasPositivas_witness :
    (tropasPositivas (simularAtaque mapaCenario 0 2 AZUL 5 0).2 ∧
        (dado 5 > dado 0 ∧
          1 ≤ (ler (simularAtaque mapaCenario 0 2 AZUL 5 0).2 (0 : Int).toNat).num_tropas)) ∧
      1 ≤ (ler (simularAtaque
        (aplicarAtaques AZUL (inicializarTerritorios alocarMapa) [⟨0, 4, 5, 0⟩])
        0 4 AZUL 5 0).2 (0 : Int).toNat).num_tropas :=
  ⟨⟨(simularAtaque_tropasPositivas.1 mapaCenario 0 2 AZUL 5 0 (by decide) (by decide)).1,
      (simularAtaque_tropasPositivas.1 mapaCenario 0 2 AZUL 5 0 (by decide) (by decide)).2
        (by decide)⟩,
    (simularAtaque_tropasPositivas.2 AZUL [⟨0, 4, 5, 0⟩] 0 4 5 0).2 (by decide)⟩

/-- C18: on a map of ten cells in which every territory has at least one troop
(and at most `INT_MAX`), an accepted attack lowers the sum of the troop counts
by exactly one for every pair of `rand()` values, conquest or not; on a
conquest the roll was won, the defender had one troop and ends the player's
with one troop, and the attacker has exactly one troop less. -/
theorem simularAtaque_total_pos (mapa : Mapa) (idOrigem idDestino : Int)
    (corJogador : String) (r1 r2 : Nat)
    (hlen : mapa.length = 10) (hpos : tropasPositivas mapa)
    (h : ataqueAceito mapa idOrigem idDestino corJogador) :
    totalTropas (simularAtaque mapa idOrigem idDestino corJogador r1 r2).2
        = totalTropas mapa - 1 ∧
      (houveConquista (simularAtaque mapa idOrigem idDestino corJogador r1 r2).1 = true →
        dado r1 > dado r2 ∧ (ler mapa idDestino.toNat).num_tropas = 1 ∧
          (ler (simularAtaque mapa idOrigem idDestino corJogador r1 r2).2
            idDestino.toNat).num_tropas = 1 ∧
          (ler (simularAtaque mapa idOrigem idDestino corJogador r1 r2).2
            idDestino.toNat).cor_exercito = corJogador ∧
          (ler (simularAtaque mapa idOrigem idDestino corJogador r1 r2).2
            idOrigem.toNat).num_tropas = (ler mapa idOrigem.toNat).num_tropas - 1) := by
  refine ⟨simularAtaque_passo_total mapa idOrigem idDestino corJogador r1 r2 hlen hpos h, ?_⟩
  intro hq
  obtain ⟨hw, hone, hD, hO, _⟩ :=
    simularAtaque_conquista_pos mapa idOrigem idDestino corJogador r1 r2 hlen hpos hq
  refine ⟨hw, hone, ?_, ?_, hO⟩
  · rw [hD]
  · rw [hD]

theorem simularAtaque_total_pos_witness :
    totalTropas (simularAtaque mapaCenario 0 2 AZUL 5 0).2 = totalTropas mapaCenario - 1 ∧
      (dado 5 > dado 0 ∧ (ler mapaCenario (2 : Int).toNat).num_tropas = 1 ∧
        (ler (simularAtaque mapaCenario 0 2 AZUL 5 0).2 (2 : Int).toNat).num_tropas = 1 ∧
        (ler (simularAtaque mapaCenario 0 2 AZUL 5 0).2 (2 : Int).toNat).cor_exercito = AZUL ∧
        (ler (simularAtaque mapaCenario 0 2 AZUL 5 0).2 (0 : Int).toNat).num_tropas
          = (ler mapaCenario (0 : Int).toNat).num_tropas - 1) :=
  ⟨(simularAtaque_total_pos mapaCenario 0 2 AZUL 5 0 (by decide) (by decide) (by decide)).1,
    (simularAtaque_total_pos mapaCenario 0 2 AZUL 5 0 (by decide) (by decide) (by decide)).2
      (by decide)⟩

/-! ## Victory under attacks -/

theorem verificarVitoria_zero (m : Mapa) (cor : String) (hlen : m.length = NUM_TERRITORIOS) :
    verificarVitoria m 0 cor = if ∃ t ∈ m, t.cor_exercito = VERMELHO then 0 else 1 := by
  have e : verificarVitoria m 0 cor = semCor m VERMELHO 0 m.length := by
    rw [hlen]; rfl
  rw [e, semCor_length]

theorem verificarVitoria_dois (m : Mapa) (cor : String) (hlen : m.length = NUM_TERRITORIOS) :
    verificarVitoria m 2 cor = if ∃ t ∈ m, t.cor_exercito = VERDE then 0 else 1 := by
  have e : verificarVitoria m 2 cor = semCor m VERDE 0 m.length := by
    rw [hlen]; rfl
  rw [e, semCor_length]

theorem semCor_bool (m : Mapa) (cor : String) (n : Nat) :
    ∀ i, semCor m cor i n = 0 ∨ semCor m cor i n = 1 := by
  induction n with
  | zero => intro i; exact Or.inr rfl
  | succ n ih =>
    intro i
    simp only [semCor]
    split
    · exact Or.inl rfl
    · exact ih (i + 1)

theorem verificarVitoria_bool (m : Mapa) (idMissao : Int) (cor : String) :
    verificarVitoria m idMissao cor = 0 ∨ verificarVitoria m idMissao cor = 1 := by
  unfold verificarVitoria
  split
  · exact semCor_bool _ _ _ _
  · split
    · by_cases hc : contarCor m cor 0 0 NUM_TERRITORIOS ≥ 6
      · exact Or.inr (if_pos hc)
      · exact Or.inl (if_neg hc)
    · split
      · exact semCor_bool _ _ _ _
      · exact Or.inl rfl

theorem simularAtaque_passo_numTerritorios (mapa : Mapa) (idOrigem idDestino : Int)
    (corJogador : String) (r1 r2 : Nat) (hlen : mapa.length = NUM_TERRITORIOS) :
    numTerritorios mapa corJogador
      ≤ numTerritorios (simularAtaque mapa idOrigem idDestino corJogador r1 r2).2
          corJogador := by
  have hlen2 := simularAtaque_length mapa idOrigem idDestino corJogador r1 r2 hlen
  have hmono := contarCor_mono mapa
    (simularAtaque mapa idOrigem idDestino corJogador r1 r2).2 corJogador 10 0 0 0
    (Int.le_refl 0)
    (fun k _ _ hc => by
      rcases simularAtaque_passo_dono mapa idOrigem idDestino corJogador r1 r2 hlen k
        with e | e
      · rw [e]; exact hc
      · exact e)
  have e1 := contarCor_length mapa corJogador 0
  have e2 := contarCor_length (simularAtaque mapa idOrigem idDestino corJogador r1 r2).2
    corJogador 0
  rw [hlen] at e1
  rw [hlen2] at e2
  unfold NUM_TERRITORIOS at e1 e2
  rw [e1, e2] at hmono
  omega

/-- C17: victory is stable under attacks.  On a map of ten cells, for every
mission id, player colour, ids and `rand()` values, when `verificarVitoria`
returns 1 (true) before a call of `simularAtaque` it returns 1 after it; the
number of territories of the player does not decrease, and every territory
keeps its owner or becomes the player's. -/
theorem verificarVitoria_estavel (mapa : Mapa) (idMissao : Int) (corJogador : String)
    (idOrigem idDestino : Int) (r1 r2 : Nat) (hlen : mapa.length = 10) :
    (verificarVitoria mapa idMissao corJogador = 1 →
        verificarVitoria (simularAtaque mapa idOrigem idDestino corJogador r1 r2).2
          idMissao corJogador = 1) ∧
      (verificarVitoria mapa idMissao corJogador ≠ 0 →
        verificarVitoria (simularAtaque mapa idOrigem idDestino corJogador r1 r2).2
          idMissao corJogador ≠ 0) ∧
      numTerritorios mapa corJogador
        ≤ numTerritorios (simularAtaque mapa idOrigem idDestino corJogador r1 r2).2
            corJogador ∧
      ∀ k : Nat,
        (ler (simularAtaque mapa idOrigem idDestino corJogador r1 r2).2 k).cor_exercito
            = (ler mapa k).cor_exercito ∨
          (ler (simularAtaque mapa idOrigem idDestino corJogador r1 r2).2 k).cor_exercito
            = corJogador := by
  have hlen2 := simularAtaque_length mapa idOrigem idDestino corJogador r1 r2 hlen
  have hnum := simularAtaque_passo_numTerritorios mapa idOrigem idDestino corJogador r1 r2 hlen
  have hcores := simularAtaque_passo_cores mapa idOrigem idDestino corJogador r1 r2 hlen
  have hum : verificarVitoria mapa idMissao corJogador = 1 →
      verificarVitoria (simularAtaque mapa idOrigem idDestino corJogador r1 r2).2
        idMissao corJogador = 1 := by
    intro hv
    by_cases h0 : idMissao = 0
    · subst h0
      rw [verificarVitoria_zero _ _ hlen] at hv
      rw [verificarVitoria_zero _ _ hlen2]
      split at hv
      · exact absurd hv (by decide)
      · rename_i hne
        rw [if_neg]
        rintro ⟨t, ht, hc⟩
        obtain ⟨t0, ht0, e⟩ := hcores t ht
        exact hne ⟨t0, ht0, by rw [← e]; exact hc⟩
    · by_cases h1 : idMissao = 1
      · subst h1
        rw [verificarVitoria_um _ _ hlen] at hv
        rw [verificarVitoria_um _ _ hlen2]
        split at hv
        · rw [if_pos (by omega)]
        · exact absurd hv (by decide)
      · by_cases h2 : idMissao = 2
        · subst h2
          rw [verificarVitoria_dois _ _ hlen] at hv
          rw [verificarVitoria_dois _ _ hlen2]
          split at hv
          · exact absurd hv (by decide)
          · rename_i hne
            rw [if_neg]
            rintro ⟨t, ht, hc⟩
            obtain ⟨t0, ht0, e⟩ := hcores t ht
            exact hne ⟨t0, ht0, by rw [← e]; exact hc⟩
        · exfalso
          unfold verificarVitoria at hv
          rw [if_neg h0, if_neg h1, if_neg h2] at hv
          exact absurd hv (by decide)
  refine ⟨hum, ?_, hnum, simularAtaque_passo_dono mapa idOrigem idDestino corJogador r1 r2 hlen⟩
  intro hne
  rcases verificarVitoria_bool mapa idMissao corJogador with e | e
  · exact absurd e hne
  · rw [hum e]; decide

theorem verificarVitoria_estavel_witness :
    verificarVitoria (simularAtaque mapaSeis 0 6 AZUL 5 0).2 1 AZUL = 1 ∧
      verificarVitoria (simularAtaque mapaSeis 0 6 AZUL 5 0).2 1 AZUL ≠ 0 ∧
      numTerritorios mapaSeis AZUL ≤ numTerritorios (simularAtaque mapaSeis 0 6 AZUL 5 0).2 AZUL :=
  ⟨(verificarVitoria_estavel mapaSeis 1 AZUL 0 6 5 0 (by decide)).1 (by decide),
    (verificarVitoria_estavel mapaSeis 1 AZUL 0 6 5 0 (by decide)).2.1 (by decide),
    (verificarVitoria_estavel mapaSeis 1 AZUL 0 6 5 0 (by decide)).2.2.1⟩

/-! ## Troops of the player -/

theorem numTerritorios_le_tropasJogador (m : Mapa) (cor : String) (h : tropasPositivas m) :
    (numTerritorios m cor : Int) ≤ tropasJogador m cor := by
  induction m with
  | nil => simp [numTerritorios, tropasJogador]
  | cons x l ih =>
    have hx := h x (List.mem_cons_self x l)
    have hl : tropasPositivas l := fun t ht => h t (List.mem_cons_of_mem x ht)
    have := ih hl
    unfold numTerritorios tropasJogador at *
    by_cases hc : x.cor_exercito = cor
    · simp only [List.countP_cons, List.map_cons, List.sum_cons, hc, decide_True, if_true]
      push_cast
      omega
    · simp only [List.countP_cons, List.map_cons, List.sum_cons, hc, decide_False, if_false]
      simp only [Bool.false_eq_true, if_false, Nat.add_zero]
      omega

/-- C19: on a map of ten cells of `int` troop counts, no call of
`simularAtaque` increases the sum of the troops on the territories of the
player; the initial scenario gives Azul 8 troops; hence after every sequence
of attacks of Azul from the initial scenario the troops of Azul are at most 8
and, every territory holding at least one troop, Azul owns at most 8
territories. -/
theorem tropasJogador_limite :
    (∀ (mapa : Mapa) (idOrigem idDestino : Int) (corJogador : String) (r1 r2 : Nat),
      mapa.length = 10 → tropasInt mapa →
      tropasJogador (simularAtaque mapa idOrigem idDestino corJogador r1 r2).2 corJogador
        ≤ tropasJogador mapa corJogador) ∧
    tropasJogador (inicializarTerritorios alocarMapa) AZUL = 8 ∧
    (∀ ataques : List Ataque,
      tropasJogador (aplicarAtaques AZUL (inicializarTerritorios alocarMapa) ataques) AZUL ≤ 8 ∧
        tropasPositivas (aplicarAtaques AZUL (inicializarTerritorios alocarMapa) ataques) ∧
        numTerritorios (aplicarAtaques AZUL (inicializarTerritorios alocarMapa) ataques) AZUL
          ≤ 8) := by
  refine ⟨?_, by decide, ?_⟩
  · intro mapa idOrigem idDestino corJogador r1 r2 hlen hint
    exact simularAtaque_passo_jogador mapa idOrigem idDestino corJogador r1 r2 hlen hint
  · intro ataques
    have key := aplicarAtaques_inv AZUL
      (fun m => m.length = NUM_TERRITORIOS ∧ tropasPositivas m ∧ tropasJogador m AZUL ≤ 8)
      (by
        intro m a hm
        refine ⟨simularAtaque_length m _ _ AZUL _ _ hm.1,
          simularAtaque_passo_pos m _ _ AZUL _ _ hm.1 hm.2.1, ?_⟩
        have := simularAtaque_passo_jogador m a.idOrigem a.idDestino AZUL a.r1 a.r2 hm.1
          (tropasPositivas_tropasInt m hm.2.1)
        omega)
      ataques (inicializarTerritorios alocarMapa) ⟨by decide, by decide, by decide⟩
    refine ⟨key.2.2, key.2.1, ?_⟩
    have := numTerritorios_le_tropasJogador _ AZUL key.2.1
    omega

theorem tropasJogador_limite_witness :
    tropasJogador (simularAtaque mapaCenario 0 2 AZUL 5 0).2 AZUL
      ≤ tropasJogador mapaCenario AZUL :=
  tropasJogador_limite.1 mapaCenario 0 2 AZUL 5 0 (by decide) (by decide)

/-! ## Drawing the mission -/

/-- C14: for every value returned by `rand()`, `sortearMissao` returns an
integer between 0 and `NUM_MISSOES - 1`, that is 0, 1 or 2: one of the three
known missions, never an id of the unknown-mission branch. -/
theorem sortearMissao_faixa (r : Nat) :
    0 ≤ sortearMissao r ∧ sortearMissao r ≤ (NUM_MISSOES : Int) - 1 ∧
      (sortearMissao r = 0 ∨ sortearMissao r = 1 ∨ sortearMissao r = 2) ∧
      exibirMissao (sortearMissao r) ≠ "Missao desconhecida." := by
  have h3 : sortearMissao r = 0 ∨ sortearMissao r = 1 ∨ sortearMissao r = 2 := by
    unfold sortearMissao NUM_MISSOES
    omega
  refine ⟨?_, ?_, h3, ?_⟩
  · unfold sortearMissao; omega
  · unfold sortearMissao NUM_MISSOES; omega
  · rcases h3 with e | e | e <;> rw [e] <;> decide

/-! ## The loop of main -/

/-- C15: one round of the loop of `main`, entered with `vitoria` at 0.  The
loop ends exactly when the choice is 0, or the choice is 2 and
`verificarVitoria` returns true for the current map and mission; every choice
other than 1 leaves the map as it was, and choice 1 leaves the map returned
by `simularAtaque`; choice 2 with an unfulfilled mission and every invalid
choice go on with the loop; and the loop goes on only with `vitoria` at 0. -/
theorem rodada_passo (mapa : Mapa) (missaoJogador : Int) (corJogador : String)
    (e : Entrada) :
    ((rodada missaoJogador corJogador ⟨mapa, 0⟩ e).2 = false ↔
        e.escolha = 0 ∨
          (e.escolha = 2 ∧ verificarVitoria mapa missaoJogador corJogador ≠ 0)) ∧
      (e.escolha ≠ 1 → (rodada missaoJogador corJogador ⟨mapa, 0⟩ e).1.mapa = mapa) ∧
      (e.escolha = 1 → (rodada missaoJogador corJogador ⟨mapa, 0⟩ e).1.mapa
        = (simularAtaque mapa e.ataque.idOrigem e.ataque.idDestino corJogador
            e.ataque.r1 e.ataque.r2).2) ∧
      (e.escolha = 2 → verificarVitoria mapa missaoJogador corJogador = 0 →
        (rodada missaoJogador corJogador ⟨mapa, 0⟩ e).2 = true) ∧
      (e.escolha ≠ 0 → e.escolha ≠ 1 → e.escolha ≠ 2 →
        (rodada missaoJogador corJogador ⟨mapa, 0⟩ e).2 = true) ∧
      ((rodada missaoJogador corJogador ⟨mapa, 0⟩ e).2 = true →
        (rodada missaoJogador corJogador ⟨mapa, 0⟩ e).1.vitoria = 0) := by
  unfold rodada faseDeAtaque
  by_cases h1 : e.escolha = 1
  · simp [h1]
  · by_cases h2 : e.escolha = 2
    · by_cases hv : verificarVitoria mapa missaoJogador corJogador = 0
      · simp [h2, hv]
      · simp [h2, hv]
    · by_cases h0 : e.escolha = 0
      · simp [h0]
      · simp [h0, h1, h2]

theorem rodada_passo_witness :
    (rodada 1 AZUL ⟨mapaSeis, 0⟩ ⟨2, ⟨0, 0, 0, 0⟩⟩).2 = false ∧
      (rodada 1 AZUL ⟨mapaCenario, 0⟩ ⟨2, ⟨0, 0, 0, 0⟩⟩).1.mapa = mapaCenario ∧
      (rodada 1 AZUL ⟨mapaCenario, 0⟩ ⟨1, ⟨0, 2, 5, 0⟩⟩).1.mapa
        = (simularAtaque mapaCenario 0 2 AZUL 5 0).2 ∧
      (rodada 1 AZUL ⟨mapaCenario, 0⟩ ⟨2, ⟨0, 0, 0, 0⟩⟩).2 = true ∧
      (rodada 1 AZUL ⟨mapaCenario, 0⟩ ⟨7, ⟨0, 0, 0, 0⟩⟩).2 = true ∧
      (rodada 1 AZUL ⟨mapaCenario, 0⟩ ⟨1, ⟨0, 2, 5, 0⟩⟩).1.vitoria = 0 :=
  ⟨(rodada_passo mapaSeis 1 AZUL ⟨2, ⟨0, 0, 0, 0⟩⟩).1.mpr (Or.inr (by decide)),
    (rodada_passo mapaCenario 1 AZUL ⟨2, ⟨0, 0, 0, 0⟩⟩).2.1 (by decide),
    (rodada_passo mapaCenario 1 AZUL ⟨1, ⟨0, 2, 5, 0⟩⟩).2.2.1 (by decide),
    (rodada_passo mapaCenario 1 AZUL ⟨2, ⟨0, 0, 0, 0⟩⟩).2.2.2.1 (by decide) (by decide),
    (rodada_passo mapaCenario 1 AZUL ⟨7, ⟨0, 0, 0, 0⟩⟩).2.2.2.2.1 (by decide) (by decide)
      (by decide),
    (rodada_passo mapaCenario 1 AZUL ⟨1, ⟨0, 2, 5, 0⟩⟩).2.2.2.2.2 (by decide)⟩

end War
